import Mathlib

/-!
Shallow embedding of the image resolution, ancestry-walk and deletion engine
of sdc-docker (`lib/backends/sdc/images.js`), together with the moray-backed
record models it manipulates (`Image`, `ImageTag`, `ImageV2`, `ImageTagV2`).

Modelling conventions:
* The moray record store, and the set of image uuids currently present in
  IMGAPI, are modelled as an explicit in-memory `Store` value threaded through
  every operation.  `list` with a filter is `List.filter`, `del` removes the
  records matching the deleted record's bucket key, `update` maps over the
  bucket.
* External collaborators whose behaviour the code only consumes (VMAPI's
  `listVms`, IMGAPI's dependent-image bookkeeping, `Image.datacenterRefcount`,
  `imgmanifest.imgUuidFromDockerDigests`) are environment functions in `Env`.
* Callback pipelines (`vasync.pipeline`) become sequential composition over a
  `σ × Option PErr` state; `next(true)` ("early abort") is `PErr.earlyAbort`
  and is turned into a success at the end of each pipeline, exactly as the
  source does with `if (err === true) err = null`.
* ISO timestamp strings are abstracted to their epoch-second value (`Nat`),
  which is the only use the embedded code makes of them.
* The JS recursion of the ancestry walk is unbounded; the embedding takes a
  fuel argument and returns `none` when fuel runs out (which never happens on
  an acyclic parent chain with fuel larger than the chain length).
-/

namespace SdcDocker

/-- Error values produced by the embedded code.  `restCode` mirrors the
`restCode` property that `getImageAncestry` inspects. -/
inductive DErr where
  | dockerError (msg : String)
  | resourceNotFound (msg : String)
  | ambiguousDockerImageId (name : String) (indexNames : List String)
  | assertionFailed (msg : String)
  deriving DecidableEq, Repr

/-- restCode of an error, as inspected by `getImageAncestry`. -/
def DErr.restCode : DErr → String
  | .dockerError _ => "DockerError"
  | .resourceNotFound _ => "ResourceNotFound"
  | .ambiguousDockerImageId _ _ => "AmbiguousDockerImageId"
  | .assertionFailed _ => "AssertionFailed"

/-- message of an error (used when an error is interpolated into a string). -/
def DErr.message : DErr → String
  | .dockerError m => m
  | .resourceNotFound m => m
  | .ambiguousDockerImageId n _ => "Ambiguous docker image id: " ++ n
  | .assertionFailed m => m

/-- decidable equality on `Except` results, so that concrete runs of the
embedded operations can be evaluated inside proofs. -/
instance exceptDecEq {ε α : Type} [DecidableEq ε] [DecidableEq α] :
    DecidableEq (Except ε α) := fun x y =>
  match x, y with
  | .ok a, .ok b =>
    if h : a = b then .isTrue (by rw [h]) else .isFalse (by simp [h])
  | .error a, .error b =>
    if h : a = b then .isTrue (by rw [h]) else .isFalse (by simp [h])
  | .ok _, .error _ => .isFalse (by simp)
  | .error _, .ok _ => .isFalse (by simp)

/-- V1 image record (`lib/models/image.js` bucket `docker_images`).  Key:
`(owner_uuid, index_name, docker_id)`. -/
structure ImageV1 where
  docker_id : String
  owner_uuid : String
  index_name : String
  head : Bool
  heads : List String
  parent : String
  refcount : Nat
  image_uuid : String
  size : Nat
  created : Nat
  container_config_cmd : Option (List String)
  deriving DecidableEq, Repr

/-- V1 tag record (`lib/models/image-tag.js` bucket `docker_image_tags`).
Key: `(owner_uuid, index_name, repo, tag)`. -/
structure ImageTagV1 where
  owner_uuid : String
  index_name : String
  repo : String
  tag : String
  docker_id : String
  deriving DecidableEq, Repr

/-- Entry of a v2 image's embedded `history` list (from the image JSON).
`created` is the epoch-second value of the ISO timestamp string. -/
structure HistoryEntry where
  comment : String
  created : Nat
  created_by : String
  size : Nat
  deriving DecidableEq, Repr

/-- V2 image record (`lib/models/image-v2.js` bucket `docker_images_v2`).
Key: `(owner_uuid, digest)`.  `manifest_layers` is the `layers[].digest` list
of `JSON.parse(manifest_str)`, `none` when `manifest_str` does not parse. -/
structure ImageV2 where
  digest : String
  owner_uuid : String
  head : Bool
  parent : String
  image_uuid : String
  manifest_digest : String
  manifest_layers : Option (List String)
  history : List HistoryEntry
  rootfs_diff_ids : List String
  size : Nat
  created : Nat
  container_config_cmd : Option (List String)
  deriving DecidableEq, Repr

/-- V2 tag record (`lib/models/image-tag-v2.js` bucket `docker_image_tags_v2`).
Key: `(owner_uuid, repo, tag)`. -/
structure ImageTagV2 where
  owner_uuid : String
  repo : String
  tag : String
  digest : String
  deriving DecidableEq, Repr

/-- Sum of the two image-record kinds, as handled by `imgFromName`,
`getImageAncestry`, `getImageHistory` and `deleteImage`. -/
inductive Img where
  | v1 (i : ImageV1)
  | v2 (i : ImageV2)
  deriving DecidableEq, Repr

/-- isV1Image from `images.js`: `!img.hasOwnProperty('manifest_str')`.
Only `ImageV2` records carry a `manifest_str` property. -/
def isV1Image : Img → Bool
  | .v1 _ => true
  | .v2 _ => false

/-- parent accessor, uniform over the two record kinds. -/
def Img.parent : Img → String
  | .v1 i => i.parent
  | .v2 i => i.parent

/-- head accessor, uniform over the two record kinds. -/
def Img.head : Img → Bool
  | .v1 i => i.head
  | .v2 i => i.head

/-- image_uuid accessor, uniform over the two record kinds. -/
def Img.image_uuid : Img → String
  | .v1 i => i.image_uuid
  | .v2 i => i.image_uuid

/-- persistent state: the four moray buckets plus the set of image uuids
currently present in IMGAPI. -/
structure Store where
  imagesV1 : List ImageV1
  tagsV1 : List ImageTagV1
  imagesV2 : List ImageV2
  tagsV2 : List ImageTagV2
  imgapiUuids : List String
  deriving DecidableEq, Repr

/-- VM as returned by VMAPI's listVms. -/
structure Vm where
  uuid : String
  state : String
  deriving DecidableEq, Repr, Inhabited

/-- external collaborators, consumed through their contracts:
`listVms image_uuid owner_uuid state` is VMAPI, `hasDependentImages uuid`
is whether IMGAPI answers `ImageHasDependentImages` to a delete of `uuid`,
`dcRefcount index_name docker_id` is `Image.datacenterRefcount` (a map from
docker_id, `none` meaning the id is absent from the result object), and
`imgUuidFromDockerDigests` is the uuid derivation from `imgmanifest`. -/
structure Env where
  listVms : String → String → String → List Vm
  hasDependentImages : String → Bool
  dcRefcount : String → String → String → Option Nat
  imgUuidFromDockerDigests : List String → String

/-- string prefix test (the moray `field=p*` wildcard match), stated over
the character lists so that it evaluates by kernel reduction. -/
def strHasPfx (p s : String) : Bool :=
  p.toList.isPrefixOf s.toList

/-- hex-string test, as `/^[0-9a-f]+$/.test(name)`. -/
def isHexStr (s : String) : Bool :=
  s.length > 0 && s.toList.all (fun c => c.isDigit || ("abcdef".toList.contains c))

/-- test for `/^sha256:[0-9a-f]+$/`. -/
def isSha256HexStr (s : String) : Bool :=
  strHasPfx "sha256:" s && isHexStr (s.drop 7)

/-- Modelled from the spec: `common.isUUID` (the `common` module is not part
of this source drop).  A UUID is 36 characters with dashes at positions
8, 13, 18 and 23 and hex digits elsewhere. -/
def isUUID (s : String) : Bool :=
  s.length = 36 &&
    (List.range 36).all (fun i =>
      let c := s.toList.getD i ' '
      if i = 8 || i = 13 || i = 18 || i = 23 then c = '-'
      else c.isDigit || ("abcdefABCDEF".toList.contains c))

/-- imgmanifest.dockerIdFromDigest: the hex part after the algorithm. -/
def dockerIdFromDigest (digest : String) : String :=
  ((digest.splitOn ":").getD 1 "")

/-- imgmanifest.shortDockerId: first 12 characters. -/
def shortDockerId (dockerId : String) : String :=
  dockerId.take 12

/-- result of `drc.parseRepoAndTag`, a pure external parsing collaborator;
the embedding passes the parsed value instead of re-parsing. -/
structure RepoAndTag where
  localName : String
  tag : String
  digest : Option String
  deriving DecidableEq, Repr

/-- tagsForImage for a v1 image: `ImageTag.list` with
`{owner_uuid, docker_id}` plus an optional `index_name` scope. -/
def tagsForImageV1 (s : Store) (owner : String) (indexName : Option String)
    (img : ImageV1) : List ImageTagV1 :=
  s.tagsV1.filter (fun t =>
    t.owner_uuid == owner && t.docker_id == img.docker_id &&
      (match indexName with
       | some n => t.index_name == n
       | none => true))

/-- tagsForImage for a v2 image: `ImageTagV2.list` with
`{owner_uuid, digest}`. -/
def tagsForImageV2 (s : Store) (owner : String) (img : ImageV2) :
    List ImageTagV2 :=
  s.tagsV2.filter (fun t => t.owner_uuid == owner && t.digest == img.digest)

/-- Image.del: delete by the v1 bucket key
`(owner_uuid, index_name, docker_id)`. -/
def storeDelImageV1 (s : Store) (img : ImageV1) : Store :=
  { s with imagesV1 := s.imagesV1.filter (fun i =>
      !(i.owner_uuid == img.owner_uuid && i.index_name == img.index_name &&
        i.docker_id == img.docker_id)) }

/-- ImageTag.del: delete by the v1 tag bucket key
`(owner_uuid, index_name, repo, tag)`. -/
def storeDelTagV1 (s : Store) (t : ImageTagV1) : Store :=
  { s with tagsV1 := s.tagsV1.filter (fun r =>
      !(r.owner_uuid == t.owner_uuid && r.index_name == t.index_name &&
        r.repo == t.repo && r.tag == t.tag)) }

/-- ImageV2.del: delete by the v2 bucket key `(owner_uuid, digest)`. -/
def storeDelImageV2 (s : Store) (img : ImageV2) : Store :=
  { s with imagesV2 := s.imagesV2.filter (fun i =>
      !(i.owner_uuid == img.owner_uuid && i.digest == img.digest)) }

/-- ImageTagV2.del: delete by the v2 tag bucket key
`(owner_uuid, repo, tag)`. -/
def storeDelTagV2 (s : Store) (t : ImageTagV2) : Store :=
  { s with tagsV2 := s.tagsV2.filter (fun r =>
      !(r.owner_uuid == t.owner_uuid && r.repo == t.repo && r.tag == t.tag)) }

/-- IMGAPI getImage by uuid: present or a 404. -/
def imgapiHasUuid (s : Store) (uuid : String) : Bool :=
  s.imgapiUuids.contains uuid

/-!
Name resolution (`_imgFromNameV2`, `_imgFromNameV1`, `imgFromDigest`,
`imgFromManifestDigest`, `imgFromName`).

Each function returns the resulting store (resolution may self-heal by
deleting stale records) together with an `Except` carrying the
`(img, imgTag)` callback values; `(none, none)` is the "no record" success
of `callback(null)` / `callback(null, undefined, undefined)`.
-/

/-- ImageTagV2.list with `{repo, owner_uuid, tag}` (findByName). -/
def listTagsV2ByName (s : Store) (owner : String) (rat : RepoAndTag) :
    List ImageTagV2 :=
  s.tagsV2.filter (fun t =>
    t.repo == rat.localName && t.owner_uuid == owner && t.tag == rat.tag)

/-- ImageV2.list with an exact `{digest, owner_uuid}` filter. -/
def listImagesV2ByDigest (s : Store) (owner digest : String) :
    List ImageV2 :=
  s.imagesV2.filter (fun i => i.digest == digest && i.owner_uuid == owner)

/-- ImageV2.list with a `{digest: p + '*', owner_uuid}` prefix filter. -/
def listImagesV2ByDigestPfx (s : Store) (owner p : String) : List ImageV2 :=
  s.imagesV2.filter (fun i => strHasPfx p i.digest && i.owner_uuid == owner)

/-- result of `_imgFromNameV2`: the store after any self-heal deletions and
the `(img, imgTag)` pair handed to the callback. -/
def imgFromNameV2 (s : Store) (owner : String) (rat : RepoAndTag) :
    Store × Except DErr (Option ImageV2 × Option ImageTagV2) :=
  let name := rat.localName
  -- findByName
  let imgTag : Option ImageTagV2 := (listTagsV2ByName s owner rat).head?
  -- findImage: exact digest for a tag hit, else digest-prefix searches
  let searched : Option (List ImageV2) :=
    match imgTag with
    | some t => some (listImagesV2ByDigest s owner t.digest)
    | none =>
      if isSha256HexStr name then
        some (listImagesV2ByDigestPfx s owner name)
      else if isHexStr name then
        some (listImagesV2ByDigestPfx s owner ("sha256:" ++ name))
      else none
  match searched with
  | none => (s, .ok (none, imgTag))
  | some imgs =>
    match imgs with
    | [] => (s, .ok (none, imgTag))
    | [img] =>
      -- isImageInImgapi
      if imgapiHasUuid s img.image_uuid then
        (s, .ok (some img, imgTag))
      else
        -- imgIsGone: delImgRef, delImgTagRef, then callback(null)
        let s := storeDelImageV2 s img
        let s := match imgTag with
          | some t => storeDelTagV2 s t
          | none => s
        (s, .ok (none, none))
    | _ :: _ :: _ =>
      -- Docker gives a 404 if multiple images are matched: early abort
      (s, .ok (none, imgTag))

/-- owner and optional index_name scope shared by the v1 filters. -/
def v1Scope (owner : String) (indexName : Option String) (i : ImageV1) :
    Bool :=
  i.owner_uuid == owner &&
    (match indexName with
     | some n => i.index_name == n
     | none => true)

/-- ImageTag.list with `{repo, owner_uuid, tag (, index_name)}`
(findByName). -/
def listTagsV1ByName (s : Store) (owner : String) (indexName : Option String)
    (rat : RepoAndTag) : List ImageTagV1 :=
  s.tagsV1.filter (fun t =>
    t.repo == rat.localName && t.owner_uuid == owner && t.tag == rat.tag &&
      (match indexName with
       | some n => t.index_name == n
       | none => true))

/-- Image.list with an exact `{docker_id, owner_uuid (, index_name)}`
filter. -/
def listImagesV1ById (s : Store) (owner : String) (indexName : Option String)
    (imgId : String) : List ImageV1 :=
  s.imagesV1.filter (fun i => i.docker_id == imgId && v1Scope owner indexName i)

/-- Image.list with a `{docker_id: p + '*', owner_uuid (, index_name)}`
prefix filter. -/
def listImagesV1ByIdPfx (s : Store) (owner : String)
    (indexName : Option String) (p : String) : List ImageV1 :=
  s.imagesV1.filter (fun i =>
    strHasPfx p i.docker_id && v1Scope owner indexName i)

/-- result of `_imgFromNameV1` (same shape as the v2 resolver, plus the
imgId-ambiguity handling described in the source's "Ambiguity notes"). -/
def imgFromNameV1 (s : Store) (owner : String) (indexName : Option String)
    (rat : RepoAndTag) :
    Store × Except DErr (Option ImageV1 × Option ImageTagV1) :=
  let name := rat.localName
  -- findByName
  let imgTag : Option ImageTagV1 := (listTagsV1ByName s owner indexName rat).head?
  let searched : Option (List ImageV1) :=
    match imgTag with
    | some t => some (listImagesV1ById s owner indexName t.docker_id)
    | none =>
      if isHexStr name && name.length ≤ 64 then
        if name.length = 64 then
          some (listImagesV1ById s owner indexName name)
        else
          some (listImagesV1ByIdPfx s owner indexName name)
      else none
  match searched with
  | none => (s, .ok (none, imgTag))
  | some imgs =>
    match imgs with
    | [] => (s, .ok (none, imgTag))
    | [img] =>
      if imgapiHasUuid s img.image_uuid then
        (s, .ok (some img, imgTag))
      else
        let s := storeDelImageV1 s img
        let s := match imgTag with
          | some t => storeDelTagV1 s t
          | none => s
        (s, .ok (none, none))
    | _ :: _ :: _ =>
      -- multiple hits: one distinct imgId over several registries is the
      -- AmbiguousDockerImageIdError case; several distinct imgIds fall
      -- through with no img found.
      if ((imgs.map (fun i => i.docker_id)).eraseDups).length = 1 then
        (s, .error (.ambiguousDockerImageId name
          (imgs.map (fun i => i.index_name))))
      else
        (s, .ok (none, imgTag))

/-- ImageV2.list with an exact `{manifest_digest, owner_uuid}` filter. -/
def listImagesV2ByManifestDigest (s : Store) (owner manifestDigest : String) :
    List ImageV2 :=
  s.imagesV2.filter (fun i =>
    i.manifest_digest == manifestDigest && i.owner_uuid == owner)

/-- imgFromManifestDigest: v2 lookup by `manifest_digest`, then an IMGAPI
presence check that does NOT self-heal. -/
def imgFromManifestDigest (s : Store) (owner : String)
    (manifestDigest : String) : Except DErr ImageV2 :=
  match listImagesV2ByManifestDigest s owner manifestDigest with
  | [] => .error (.resourceNotFound
      ("No image with manifest digest: " ++ manifestDigest))
  | [img] =>
    if imgapiHasUuid s img.image_uuid then .ok img
    else .error (.resourceNotFound
      ("No imgapi image with image_uuid: " ++ img.image_uuid))
  | _ :: _ :: _ => .error (.dockerError
      ("Error - multiple images with the same manifest digest: "
        ++ manifestDigest))

/-- imgFromDigest: v2 lookup by exact `digest`, then an IMGAPI presence
check that does NOT self-heal. -/
def imgFromDigest (s : Store) (owner : String) (digest : String) :
    Except DErr ImageV2 :=
  match listImagesV2ByDigest s owner digest with
  | [] => .error (.resourceNotFound ("No image with digest: " ++ digest))
  | [img] =>
    if imgapiHasUuid s img.image_uuid then .ok img
    else .error (.resourceNotFound
      ("No imgapi image with image_uuid: " ++ img.image_uuid))
  | _ :: _ :: _ => .error (.dockerError
      ("Error - multiple images found with the same digest: " ++ digest))

/-- resolution result of `imgFromName` (the smartos case returns a faux
record holding only the IMGAPI uuid). -/
inductive Resolved where
  | v1 (img : ImageV1)
  | v2 (img : ImageV2)
  | smartos (image_uuid : String)
  deriving DecidableEq, Repr

/-- tag record returned by `imgFromName`, of either kind. -/
inductive AnyTag where
  | v1 (t : ImageTagV1)
  | v2 (t : ImageTagV2)
  deriving DecidableEq, Repr

/-- smartos lookup environment for `imgFromName` step `findUuidInImgapi`:
`getSmartosImage name owner` is IMGAPI `getImage(name, acct, {os: smartos,
state: active})`, returning the image uuid when such an image exists. -/
structure SmartosEnv where
  getSmartosImage : String → String → Option String

/-- imgFromName: the resolution pipeline
`findUuidInImgapi → findByManifestDigest → findByImageDigest →
findByNameV2 → findByNameV1`, first success short-circuiting. -/
def imgFromName (senv : SmartosEnv) (s : Store) (owner : String)
    (name : String) (rat : RepoAndTag) (indexName : Option String)
    (includeSmartos : Bool) :
    Store × Except DErr (Option Resolved × Option AnyTag) :=
  -- findUuidInImgapi
  if includeSmartos && isUUID name then
    match senv.getSmartosImage name owner with
    | some uuid => (s, .ok (some (.smartos uuid), none))
    | none => imgFromNameRest s owner name rat indexName
  else
    imgFromNameRest s owner name rat indexName
where
  /-- steps of the pipeline after the smartos short-circuit. -/
  imgFromNameRest (s : Store) (owner name : String) (rat : RepoAndTag)
      (indexName : Option String) :
      Store × Except DErr (Option Resolved × Option AnyTag) :=
    -- findByManifestDigest
    match rat.digest with
    | some d =>
      (match imgFromManifestDigest s owner d with
       | .ok img => (s, .ok (some (.v2 img), none))
       | .error e => (s, .error e))
    | none =>
      -- findByImageDigest: only for an exact `sha256:` + 64 hex chars name
      if name.length = 64 + 7 && strHasPfx "sha256:" name then
        match imgFromDigest s owner name with
        | .ok img => (s, .ok (some (.v2 img), none))
        | .error e => (s, .error e)
      else
        -- findByNameV2
        match imgFromNameV2 s owner rat with
        | (s2, .error e) => (s2, .error e)
        | (s2, .ok (some img, imgTag)) =>
          (s2, .ok (some (.v2 img), imgTag.map AnyTag.v2))
        | (s2, .ok (none, _)) =>
          -- findByNameV1 (overwrites both img and imgTag)
          match imgFromNameV1 s2 owner indexName rat with
          | (s3, .error e) => (s3, .error e)
          | (s3, .ok (img, imgTag)) =>
            (s3, .ok (img.map Resolved.v1, imgTag.map AnyTag.v1))

/-!
Ancestry walker (`getImageAncestry`) and history projector
(`getImageHistory`).
-/

/-- lookup environment for the ancestry walk: `v1 indexName imgId` is
`imgFromImgInfoV1` and `v2 digest` is `imgFromImgInfoV2`.  The record store
behind those lookups is consumed as an interface, so the walker is
parameterised by it; `lookupEnvOfStore` instantiates it with the in-memory
store semantics. -/
structure LookupEnv where
  v1 : String → String → Except DErr ImageV1
  v2 : String → Except DErr ImageV2

/-- one parent lookup of the walk, dispatching on the record kind exactly as
`addAndGetNextItem` does via `isV1Image`. -/
def lookupStep (env : LookupEnv) : Img → Except DErr Img
  | .v1 i => (env.v1 i.index_name i.parent).map Img.v1
  | .v2 i => (env.v2 i.parent).map Img.v2

/-- checkAndCallback from `getImageAncestry`: a ResourceNotFound with at
least one image already collected ends the walk with the partial flag set;
any other error propagates. -/
def checkAndCallback (ancestry : List Img) (e : Option DErr) :
    Except DErr (List Img × Bool) :=
  match e with
  | some err =>
    if err.restCode == "ResourceNotFound" && ancestry.length ≥ 1 then
      .ok (ancestry, true)
    else
      .error err
  | none => .ok (ancestry, false)

/-- addAndGetNextItem from `getImageAncestry`: push the image, stop when its
parent is empty, otherwise look the parent up and recurse.  `none` is fuel
exhaustion (the JS recursion is unbounded). -/
def addAndGetNextItem (env : LookupEnv) :
    Nat → Img → List Img → Option (Except DErr (List Img × Bool))
  | fuel, img, ancestry =>
    let ancestry := ancestry ++ [img]
    if img.parent == "" then
      some (checkAndCallback ancestry none)
    else
      match fuel with
      | 0 => none
      | fuel + 1 =>
        match lookupStep env img with
        | .error e => some (checkAndCallback ancestry (some e))
        | .ok parentImg => addAndGetNextItem env fuel parentImg ancestry

/-- getImageAncestry: the walk started on the given image with an empty
accumulator. -/
def getImageAncestry (env : LookupEnv) (fuel : Nat) (img : Img) :
    Option (Except DErr (List Img × Bool)) :=
  addAndGetNextItem env fuel img []

/-- imgFromImgInfoV1 over the in-memory store: `Image.list` with
`{owner_uuid, index_name, docker_id}`; no record is a ResourceNotFound. -/
def imgFromImgInfoV1 (s : Store) (owner indexName imgId : String) :
    Except DErr ImageV1 :=
  match s.imagesV1.filter (fun i =>
      i.owner_uuid == owner && i.index_name == indexName &&
        i.docker_id == imgId) with
  | [] => .error (.resourceNotFound
      ("No such image id (from registry " ++ indexName ++ "): " ++ imgId))
  | img :: _ => .ok img

/-- imgFromImgInfoV2 over the in-memory store: `ImageV2.list` with
`{owner_uuid, digest}`; no record is a ResourceNotFound. -/
def imgFromImgInfoV2 (s : Store) (owner digest : String) :
    Except DErr ImageV2 :=
  match s.imagesV2.filter (fun i =>
      i.owner_uuid == owner && i.digest == digest) with
  | [] => .error (.resourceNotFound ("No such image: " ++ digest))
  | img :: _ => .ok img

/-- lookup environment given by the in-memory store. -/
def lookupEnvOfStore (s : Store) (owner : String) : LookupEnv where
  v1 := fun indexName imgId => imgFromImgInfoV1 s owner indexName imgId
  v2 := fun digest => imgFromImgInfoV2 s owner digest

/-- history entry handed to the Docker client by `getImageHistory`.
`tags` is `none` for the synthetic `Tags: null` padding entries and
`comment` is only present on padding entries. -/
structure HistEntryOut where
  id : String
  created : Nat
  created_by : String
  size : Nat
  tags : Option (List String)
  comment : Option String
  deriving DecidableEq, Repr

/-- Id of a history entry: `img.digest || img.docker_id`. -/
def Img.historyId : Img → String
  | .v1 i => i.docker_id
  | .v2 i => i.digest

/-- created accessor, uniform over the two record kinds. -/
def Img.createdAt : Img → Nat
  | .v1 i => i.created
  | .v2 i => i.created

/-- size accessor, uniform over the two record kinds. -/
def Img.sizeOf : Img → Nat
  | .v1 i => i.size
  | .v2 i => i.size

/-- container_config.Cmd accessor, uniform over the two record kinds. -/
def Img.containerConfigCmd : Img → Option (List String)
  | .v1 i => i.container_config_cmd
  | .v2 i => i.container_config_cmd

/-- tag strings for one ancestor, via tagsForImage dispatched on the kind. -/
def tagStringsForImg (s : Store) (owner : String) (indexName : Option String) :
    Img → List String
  | .v1 i => (tagsForImageV1 s owner indexName i).map
      (fun t => t.repo ++ ":" ++ t.tag)
  | .v2 i => (tagsForImageV2 s owner i).map
      (fun t => t.repo ++ ":" ++ t.tag)

/-- one real (non-padding) history entry built by `lookupAncestorTags`. -/
def histEntryOfImg (s : Store) (owner : String) (indexName : Option String)
    (img : Img) : HistEntryOut :=
  { id := img.historyId
    created := img.createdAt
    created_by := (match img.containerConfigCmd with
      | some cmd => String.intercalate " " cmd
      | none => "")
    size := img.sizeOf
    tags := some (tagStringsForImg s owner indexName img)
    comment := none }

/-- one synthetic `<missing>` padding entry built from an embedded v2
history descriptor. -/
def histEntryOfHistory (h : HistoryEntry) : HistEntryOut :=
  { id := "<missing>"
    created := h.created
    created_by := h.created_by
    size := h.size
    tags := none
    comment := some h.comment }

/-- getImageHistory: walk the ancestry, emit one entry per ancestor, and for
v2 pad with the excess oldest embedded-history entries so the count matches
the embedded history length (an `assert.equal` in the source, modelled as an
assertionFailed error when it would throw). -/
def getImageHistory (s : Store) (owner : String) (indexName : Option String)
    (fuel : Nat) (img : Img) : Option (Except DErr (List HistEntryOut)) :=
  match getImageAncestry (lookupEnvOfStore s owner) fuel img with
  | none => none
  | some (.error e) => some (.error e)
  | some (.ok (ancestry, _)) =>
    let history := ancestry.map (histEntryOfImg s owner indexName)
    match img with
    | .v1 _ => some (.ok history)
    | .v2 i =>
      let imgHist := i.history
      let history :=
        if imgHist.length > history.length then
          history ++
            ((imgHist.take (imgHist.length - history.length)).reverse.map
              histEntryOfHistory)
        else history
      if history.length = imgHist.length then some (.ok history)
      else some (.error (.assertionFailed "History length should be equal"))

/-!
Deletion engine (`_deleteImageV1`, `_deleteImageV2`).
-/

/-- changeLog entry: `{Untagged: name}` or `{Deleted: id}`. -/
inductive Change where
  | untagged (name : String)
  | deleted (idOrMsg : String)
  deriving DecidableEq, Repr

/-- pipeline error channel: a real error, the `next(true)` early-abort
sentinel, or fuel exhaustion of the embedded ancestry recursion. -/
inductive PErr where
  | earlyAbort
  | fail (e : DErr)
  | outOfFuel
  deriving DecidableEq, Repr

/-- vasync.pipeline sequencing: run the next step only when no error is
pending. -/
def pbind {σ : Type} (r : σ × Option PErr) (f : σ → σ × Option PErr) :
    σ × Option PErr :=
  match r with
  | (c, none) => f c
  | (c, some e) => (c, some e)

/-- Modelled from the spec: `utils.vmUuidToShortDockerId` (the `utils`
module is not part of this source drop); the workload's short docker id is
derived from its uuid with the dashes removed. -/
def vmUuidToShortDockerId (uuid : String) : String :=
  (((uuid.splitOn "-").foldl (fun acc p => acc ++ p) "")).take 12

/-- conflict message of `verifyNotInUse`, shared verbatim by the v1 and v2
pipelines. -/
def inUseMessage (force : Bool) (name : String) (vms : List Vm) : String :=
  let sorted := vms.mergeSort (fun a b => a.state ≤ b.state)
  let forceStr := if force then "force " else ""
  let sId := vmUuidToShortDockerId ((sorted.headI).uuid)
  if (sorted.headI).state == "running" then
    "Conflict, cannot " ++ forceStr ++ "delete " ++ name ++ " because "
      ++ "the running container " ++ sId
      ++ " is using it, stop it and use -f to force"
  else
    "Conflict, cannot " ++ forceStr ++ "delete " ++ name ++ " because "
      ++ "the container " ++ sId ++ " is using it, use -f to force"

/-- arguments of one `_deleteImageV1` call: the resolution outcome
(`img`, optional `imgTag`), the request parameters and the environment. -/
structure V1Args where
  env : Env
  owner : String
  name : String
  force : Bool
  imgTag : Option ImageTagV1
  img : ImageV1
  fuel : Nat

/-- mutable context threaded through the `_deleteImageV1` pipeline.
`trace` records the IMGAPI deleteImage calls issued, in order. -/
structure V1Ctx where
  store : Store
  changes : List Change
  imgTags : List ImageTagV1
  imgsToDelete : List Img
  dcRefcount : String → Option Nat
  dontDeleteImages : Bool
  trace : List String

/-- ensureIsHeadImage: a non-head v1 image is never deleted; the error
cites the 12-char prefixes of its `heads` back-references. -/
def ensureIsHeadImageV1 (a : V1Args) (ctx : V1Ctx) : V1Ctx × Option PErr :=
  if a.img.head ≠ true then
    let heads := String.intercalate ", "
      (a.img.heads.map (fun imgId => imgId.take 12))
    (ctx, some (.fail (.dockerError
      ("Conflict, " ++ (a.img.docker_id.take 12) ++ " wasn\x27t deleted "
        ++ "because it is an intermediate layer being referenced by "
        ++ heads))))
  else
    (ctx, none)

/-- getImgTags: collect every tag of the image for untagging (no
`index_name` scope is passed here). -/
def getImgTagsV1 (a : V1Args) (ctx : V1Ctx) : V1Ctx × Option PErr :=
  ({ ctx with imgTags := tagsForImageV1 ctx.store a.owner none a.img }, none)

/-- checkTagReferences: an id/prefix name with more than one tag needs
force; a tag name with more than one tag switches to untag-only. -/
def checkTagReferencesV1 (a : V1Args) (ctx : V1Ctx) : V1Ctx × Option PErr :=
  if a.img.docker_id.take a.name.length == a.name then
    if !a.force && ctx.imgTags.length > 1 then
      (ctx, some (.fail (.dockerError
        ("conflict: unable to delete " ++ a.name ++ " (must be forced) - "
          ++ "image is referenced in one or more repositories"))))
    else (ctx, none)
  else if ctx.imgTags.length > 1 then
    match a.imgTag with
    | none => (ctx, some (.fail (.assertionFailed "ctx.imgTag")))
    | some t =>
      ({ ctx with dontDeleteImages := true, imgTags := [t] }, none)
  else (ctx, none)

/-- verifyNotInUse: skipped when untag-only; otherwise a running container
always blocks, a stopped one blocks unless force. -/
def verifyNotInUseV1 (a : V1Args) (ctx : V1Ctx) : V1Ctx × Option PErr :=
  if ctx.dontDeleteImages then (ctx, none)
  else
    match a.env.listVms a.img.image_uuid a.owner
        (if a.force then "running" else "active") with
    | [] => (ctx, none)
    | vms => (ctx, some (.fail (.dockerError (inUseMessage a.force a.name vms))))

/-- getImgsToDelete: walk the ancestry; a partial walk does not abort the
delete, it only limits the cascade and pushes a warning changeLog entry
(the message interpolates the `err` variable, which is null there). -/
def getImgsToDeleteV1 (a : V1Args) (ctx : V1Ctx) : V1Ctx × Option PErr :=
  match getImageAncestry (lookupEnvOfStore ctx.store a.owner) a.fuel
      (.v1 a.img) with
  | none => (ctx, some .outOfFuel)
  | some (.error _) =>
    (ctx, some (.fail (.dockerError "could not delete image")))
  | some (.ok (history, isPart)) =>
    if isPart then
      ({ ctx with
          changes := ctx.changes ++ [Change.deleted
            ("warning: " ++ a.name ++ " missing some history: null")],
          imgsToDelete := history }, none)
    else
      ({ ctx with imgsToDelete := history }, none)

/-- continuation invocations that `getImgsToDelete` performs for a given
ancestry-walk outcome, in order.  The partial-history branch of the source
pushes its warning, sets `ctx.imgsToDelete` and calls `cb()`, then falls
through (there is no `return`) and calls `cb()` a second time. -/
def getImgsToDeleteV1CbCalls (ancResult : Except DErr (List Img × Bool)) :
    List (Option DErr) :=
  match ancResult with
  | .error _ => [some (.dockerError "could not delete image")]
  | .ok (_, isPart) => if isPart then [none, none] else [none]

/-- warning changeLog entries that `getImgsToDelete` appends for a given
ancestry-walk outcome. -/
def getImgsToDeleteV1Warnings (name : String)
    (ancResult : Except DErr (List Img × Bool)) : List Change :=
  match ancResult with
  | .error _ => []
  | .ok (_, isPart) =>
    if isPart then
      [Change.deleted ("warning: " ++ name ++ " missing some history: null")]
    else []

/-- getDatacenterRefcount: `Image.datacenterRefcount` scoped to the target
image, an external query. -/
def getDatacenterRefcountV1 (a : V1Args) (ctx : V1Ctx) :
    V1Ctx × Option PErr :=
  ({ ctx with dcRefcount :=
      a.env.dcRefcount a.img.index_name a.img.docker_id }, none)

/-- untagHeads: delete every collected tag record, appending an `Untagged`
entry per tag. -/
def untagHeadsV1 (ctx : V1Ctx) : V1Ctx × Option PErr :=
  (ctx.imgTags.foldl (fun c t =>
    { c with
        store := storeDelTagV1 c.store t,
        changes := c.changes ++ [Change.untagged (t.repo ++ ":" ++ t.tag)] })
    ctx, none)

/-- deleteOneImg iterated over the cascade: a shared ancestor
(`refcount > 1`) only loses this chain's membership in its `heads` list
(and, when it is the deletion target, its `head` flag); otherwise the
record is deleted and, when it is the datacenter-wide last reference and no
`ImageHasDependentImages` response was hit yet, an IMGAPI delete is issued.
An `ImageHasDependentImages` response sets the latch and is not an error. -/
def deleteImgsGoV1 (env : Env) (target : ImageV1) :
    List Img → V1Ctx → Bool → (V1Ctx × Bool) × Option PErr
  | [], ctx, flag => ((ctx, flag), none)
  | i :: rest, ctx, flag =>
    match i with
    | .v2 _ => ((ctx, flag),
        some (.fail (.assertionFailed "v1 cascade on a non-v1 record")))
    | .v1 img =>
      if img.refcount > 1 then
        let upd : ImageV1 → ImageV1 := fun r =>
          if r.owner_uuid == img.owner_uuid &&
              r.index_name == img.index_name &&
              r.docker_id == img.docker_id then
            { r with
                heads := r.heads.filter (fun id => id != target.docker_id),
                head := if img.docker_id == target.docker_id then false
                        else r.head }
          else r
        deleteImgsGoV1 env target rest
          { ctx with store :=
              { ctx.store with imagesV1 := ctx.store.imagesV1.map upd } }
          flag
      else
        let ctx := { ctx with
          store := storeDelImageV1 ctx.store img,
          changes := ctx.changes ++ [Change.deleted img.docker_id] }
        let isLastRef := (ctx.dcRefcount img.docker_id).isSome
        if !isLastRef || flag then
          deleteImgsGoV1 env target rest ctx flag
        else
          let ctx := { ctx with trace := ctx.trace ++ [img.image_uuid] }
          if env.hasDependentImages img.image_uuid then
            deleteImgsGoV1 env target rest ctx true
          else
            let uuids2 :=
              ctx.store.imgapiUuids.filter (fun u => u != img.image_uuid)
            deleteImgsGoV1 env target rest
              { ctx with store := { ctx.store with imgapiUuids := uuids2 } }
              flag

/-- deleteImgs: skipped entirely when untag-only; errors are wrapped as
"could not delete image". -/
def deleteImgsV1 (a : V1Args) (ctx : V1Ctx) : V1Ctx × Option PErr :=
  if ctx.dontDeleteImages then (ctx, none)
  else
    match deleteImgsGoV1 a.env a.img ctx.imgsToDelete ctx false with
    | ((ctx2, _), none) => (ctx2, none)
    | ((ctx2, _), some (.fail _)) =>
      (ctx2, some (.fail (.dockerError "could not delete image")))
    | ((ctx2, _), some e) => (ctx2, some e)

/-- the `_deleteImageV1` pipeline; its final callback passes the error (if
any) and the accumulated changes through unchanged. -/
def deleteImageV1 (a : V1Args) (s : Store) : V1Ctx × Option PErr :=
  let ctx0 : V1Ctx :=
    { store := s, changes := [], imgTags := [], imgsToDelete := [],
      dcRefcount := fun _ => none, dontDeleteImages := false, trace := [] }
  pbind (pbind (pbind (pbind (pbind (pbind (pbind
    (ensureIsHeadImageV1 a ctx0)
    (getImgTagsV1 a))
    (checkTagReferencesV1 a))
    (verifyNotInUseV1 a))
    (getImgsToDeleteV1 a))
    (getDatacenterRefcountV1 a))
    untagHeadsV1)
    (deleteImgsV1 a)

/-- arguments of one `_deleteImageV2` call; `imgTag` is only set when the
image was found using the name and not the digest. -/
structure V2Args where
  env : Env
  owner : String
  name : String
  force : Bool
  imgTag : Option ImageTagV2
  img : ImageV2
  fuel : Nat

/-- mutable context threaded through the `_deleteImageV2` pipeline. -/
structure V2Ctx where
  store : Store
  changes : List Change
  imgTags : List ImageTagV2
  imgsToDelete : List Img
  trace : List String

/-- getImgTags for the v2 pipeline. -/
def getImgTagsV2 (a : V2Args) (ctx : V2Ctx) : V2Ctx × Option PErr :=
  ({ ctx with imgTags := tagsForImageV2 ctx.store a.owner a.img }, none)

/-- checkTagReferences: an image found by digest (no imgTag) with more than
one tag can only be removed with force. -/
def checkTagReferencesV2 (a : V2Args) (ctx : V2Ctx) : V2Ctx × Option PErr :=
  let shortId := shortDockerId (dockerIdFromDigest a.img.digest)
  if a.imgTag.isNone && !a.force && ctx.imgTags.length > 1 then
    (ctx, some (.fail (.dockerError
      ("conflict: unable to delete " ++ shortId ++ " (must be forced) - "
        ++ "image is referenced in one or more repositories"))))
  else (ctx, none)

/-- checkJustUntagImage: a tag name with more than one tag on the image
untags just the given one and aborts the pipeline early. -/
def checkJustUntagImageV2 (a : V2Args) (ctx : V2Ctx) : V2Ctx × Option PErr :=
  match a.imgTag with
  | some t =>
    if ctx.imgTags.length > 1 then
      ({ ctx with
          store := storeDelTagV2 ctx.store t,
          changes := ctx.changes ++
            [Change.untagged (t.repo ++ ":" ++ t.tag)] },
        some .earlyAbort)
    else (ctx, none)
  | none => (ctx, none)

/-- verifyNotInUse for the v2 pipeline (identical to v1, but never
skipped). -/
def verifyNotInUseV2 (a : V2Args) (ctx : V2Ctx) : V2Ctx × Option PErr :=
  match a.env.listVms a.img.image_uuid a.owner
      (if a.force then "running" else "active") with
  | [] => (ctx, none)
  | vms => (ctx, some (.fail (.dockerError (inUseMessage a.force a.name vms))))

/-- getImgsToDelete: walk the ancestry and truncate the cascade at (and
excluding) the first ancestor that is itself a head image (the source's
`headFound` latch over `ancestry.slice(1)`). -/
def getImgsToDeleteV2 (a : V2Args) (ctx : V2Ctx) : V2Ctx × Option PErr :=
  match getImageAncestry (lookupEnvOfStore ctx.store a.owner) a.fuel
      (.v2 a.img) with
  | none => (ctx, some .outOfFuel)
  | some (.error _) =>
    (ctx, some (.fail (.dockerError "could not delete image")))
  | some (.ok (ancestry, _)) =>
    match ancestry with
    | [] => ({ ctx with imgsToDelete := [] }, none)
    | a0 :: rest =>
      ({ ctx with imgsToDelete :=
          a0 :: rest.takeWhile (fun i => !i.head) }, none)

/-- deleteDockerTags: untag every tag of the image. -/
def deleteDockerTagsV2 (ctx : V2Ctx) : V2Ctx × Option PErr :=
  (ctx.imgTags.foldl (fun c t =>
    { c with
        store := storeDelTagV2 c.store t,
        changes := c.changes ++ [Change.untagged (t.repo ++ ":" ++ t.tag)] })
    ctx, none)

/-- per-layer info of `deleteImgapiLayers`: the layer digest, its diff id
and the IMGAPI uuid derived from the ordered layer digests up to it. -/
structure LayerInfo where
  layerDigest : String
  diffId : String
  uuid : String
  deriving DecidableEq, Repr

/-- layerInfos construction: walk `manifest.layers` accumulating the
ordered digest list and deriving each uuid from the accumulated list. -/
def mkLayerInfos (env : Env) :
    List String → List String → List String → List LayerInfo
  | acc, l :: ls, d :: ds =>
    let acc2 := acc ++ [l]
    { layerDigest := l, diffId := d,
      uuid := env.imgUuidFromDockerDigests acc2 } :: mkLayerInfos env acc2 ls ds
  | _, _, _ => []

/-- deleteLayer iterated leaf-to-root: once the latch is set every later
layer is skipped; a positive residual datacenter-wide reference count (the
live `ImageV2.list` count minus this cascade's own contribution) or an
`ImageHasDependentImages` response sets the latch without failing. -/
def deleteLayerGoV2 (env : Env) :
    List LayerInfo → V2Ctx → (String → Nat) → Bool → V2Ctx × Bool
  | [], ctx, _, flag => (ctx, flag)
  | li :: rest, ctx, own, flag =>
    if flag then deleteLayerGoV2 env rest ctx own flag
    else
      let imgs := ctx.store.imagesV2.filter (fun i => i.image_uuid == li.uuid)
      let hasOwn := own li.uuid > 0
      let cnt := if hasOwn then imgs.length - 1 else imgs.length
      let own2 := if hasOwn then
          (fun u => if u == li.uuid then own u - 1 else own u)
        else own
      if cnt ≥ 1 then deleteLayerGoV2 env rest ctx own2 true
      else
        let ctx := { ctx with trace := ctx.trace ++ [li.uuid] }
        if env.hasDependentImages li.uuid then
          deleteLayerGoV2 env rest ctx own2 true
        else
          let uuids2 := ctx.store.imgapiUuids.filter (fun u => u != li.uuid)
          deleteLayerGoV2 env rest
            { ctx with
                store := { ctx.store with imgapiUuids := uuids2 },
                changes := ctx.changes ++ [Change.deleted li.diffId] }
            own2 flag

/-- deleteImgapiLayers: parse the manifest, derive the per-layer uuids and
reclaim unreferenced layers in reverse (leaf-to-root) order. -/
def deleteImgapiLayersV2 (a : V2Args) (ctx : V2Ctx) : V2Ctx × Option PErr :=
  match a.img.manifest_layers with
  | none => (ctx, some (.fail (.dockerError
      ("Unable to parse image manifest_str for image " ++ a.img.digest))))
  | some layers =>
    let diffIds := a.img.rootfs_diff_ids
    if diffIds.length ≠ layers.length then
      (ctx, some (.fail (.assertionFailed
        "diff_ids length and manifest.layers length must be equal")))
    else
      let own : String → Nat := fun u =>
        ctx.imgsToDelete.countP (fun i => i.image_uuid == u)
      let layerInfos := mkLayerInfos a.env [] layers diffIds
      let (ctx2, _) := deleteLayerGoV2 a.env layerInfos.reverse ctx own false
      (ctx2, none)

/-- deleteDockerImages: delete the metadata record of every cascade member
unconditionally (an assertion checks that every non-target member is a
non-head image). -/
def deleteDockerImagesGoV2 (targetDigest : String) :
    List Img → V2Ctx → V2Ctx × Option PErr
  | [], ctx => (ctx, none)
  | i :: rest, ctx =>
    match i with
    | .v1 _ => (ctx,
        some (.fail (.assertionFailed "v2 cascade on a non-v2 record")))
    | .v2 img =>
      if img.digest != targetDigest && img.head then
        (ctx, some (.fail (.assertionFailed "img.head should be false")))
      else
        deleteDockerImagesGoV2 targetDigest rest
          { ctx with
              store := storeDelImageV2 ctx.store img,
              changes := ctx.changes ++ [Change.deleted img.digest] }

/-- deleteDockerImages step, wrapping errors as "could not delete image". -/
def deleteDockerImagesV2 (a : V2Args) (ctx : V2Ctx) : V2Ctx × Option PErr :=
  match deleteDockerImagesGoV2 a.img.digest ctx.imgsToDelete ctx with
  | (ctx2, none) => (ctx2, none)
  | (ctx2, some (.fail _)) =>
    (ctx2, some (.fail (.dockerError "could not delete image")))
  | (ctx2, some e) => (ctx2, some e)

/-- the `_deleteImageV2` pipeline; its final callback turns the early-abort
sentinel into a success and passes the accumulated changes through. -/
def deleteImageV2 (a : V2Args) (s : Store) : V2Ctx × Option PErr :=
  let ctx0 : V2Ctx :=
    { store := s, changes := [], imgTags := [], imgsToDelete := [],
      trace := [] }
  let r := pbind (pbind (pbind (pbind (pbind (pbind (pbind
    (getImgTagsV2 a ctx0)
    (checkTagReferencesV2 a))
    (checkJustUntagImageV2 a))
    (verifyNotInUseV2 a))
    (getImgsToDeleteV2 a))
    deleteDockerTagsV2)
    (deleteImgapiLayersV2 a))
    (deleteDockerImagesV2 a)
  match r with
  | (ctx, some .earlyAbort) => (ctx, none)
  | other => other

/-!
Tagging (`tagImage`).
-/

/-- ImageTagV2.create: a moray put keyed on `(owner_uuid, repo, tag)` (the
tag model file is not part of this source drop; its create is the bucket
upsert the spec's Record Store Adapter contract describes). -/
def storePutTagV2 (s : Store) (t : ImageTagV2) : Store :=
  { s with tagsV2 :=
      (s.tagsV2.filter (fun r =>
        !(r.owner_uuid == t.owner_uuid && r.repo == t.repo &&
          r.tag == t.tag))) ++ [t] }

/-- tagImage: tag a digest with a name.  Without an explicit digest the
image must be supplied, and a v1 image (per `isV1Image`) is rejected before
any record is written; otherwise an `ImageTagV2` record is created. -/
def tagImage (s : Store) (owner : String) (rat : RepoAndTag)
    (digestOpt : Option String) (imgOpt : Option Img) :
    Store × Except DErr ImageTagV2 :=
  let digRes : Except DErr String :=
    match digestOpt with
    | some d => .ok d
    | none =>
      match imgOpt with
      | none => .error (.assertionFailed
          "opts.img or opts.digest must be provided")
      | some img =>
        -- the `isV1Image(opts.img)` rejection: exactly the v1 case
        match img with
        | .v1 _ => .error (.dockerError
            "Cannot tag old v1 images - repull or rebuild the image")
        | .v2 i => .ok i.digest
  match digRes with
  | .error e => (s, .error e)
  | .ok d =>
    let t : ImageTagV2 :=
      { owner_uuid := owner, repo := rat.localName, tag := rat.tag,
        digest := d }
    (storePutTagV2 s t, .ok t)

/-!
Trace predicates used to state the `DependentBlobExists` short-circuit
property, plus concrete fixtures for witnesses and counterexamples.
-/

/-- every uuid in the list got a non-dependent answer. -/
def allNotDep (dep : String → Bool) (l : List String) : Bool :=
  l.all (fun u => !dep u)

/-- the call sequence stops at the first dependent answer: a uuid answered
`ImageHasDependentImages` is never followed by another call. -/
def stopsAfterDep (dep : String → Bool) : List String → Bool
  | [] => true
  | u :: rest => if dep u then rest.isEmpty else stopsAfterDep dep rest

/-- 64 repetitions of a character, for realistic 64-hex-char ids. -/
def hex64 (c : Char) : String :=
  String.mk (List.replicate 64 c)

/-- environment with no VMs, no dependent blobs and an empty
datacenter-refcount result. -/
def exEnv : Env :=
  { listVms := fun _ _ _ => []
    hasDependentImages := fun _ => false
    dcRefcount := fun _ _ _ => none
    imgUuidFromDockerDigests := fun l => String.intercalate "+" l }

/-- smartos environment that never finds an image. -/
def exSmartosEnv : SmartosEnv :=
  { getSmartosImage := fun _ _ => none }

/-- v2 image fixture: two tags point at it. -/
def exImgA : ImageV2 :=
  { digest := "sha256:" ++ hex64 'a', owner_uuid := "own-1", head := true,
    parent := "", image_uuid := "uuid-a", manifest_digest := "sha256:ma",
    manifest_layers := some ["sha256:la"], history := [],
    rootfs_diff_ids := ["sha256:da"], size := 5, created := 100,
    container_config_cmd := none }

/-- tag `busybox:latest` on `exImgA`. -/
def exTagLatest : ImageTagV2 :=
  { owner_uuid := "own-1", repo := "busybox", tag := "latest",
    digest := exImgA.digest }

/-- tag `busybox:v1` on `exImgA`. -/
def exTagV1 : ImageTagV2 :=
  { owner_uuid := "own-1", repo := "busybox", tag := "v1",
    digest := exImgA.digest }

/-- store for the C1 witness: one v2 image with two tags. -/
def exStoreC1 : Store :=
  { imagesV1 := [], tagsV1 := [], imagesV2 := [exImgA],
    tagsV2 := [exTagLatest, exTagV1], imgapiUuids := ["uuid-a"] }

/-- non-head v1 image fixture for the C2 witness. -/
def exImgNonHead : ImageV1 :=
  { docker_id := hex64 'b', owner_uuid := "own-1",
    index_name := "docker.io", head := false,
    heads := [hex64 'c', hex64 'd'], parent := "", refcount := 2,
    image_uuid := "uuid-b", size := 3, created := 50,
    container_config_cmd := none }

/-- v2 image fixture whose backing blob is gone from IMGAPI. -/
def exImgGone : ImageV2 :=
  { digest := "sha256:" ++ hex64 'e', owner_uuid := "own-1", head := true,
    parent := "", image_uuid := "uuid-gone", manifest_digest := "sha256:me",
    manifest_layers := some ["sha256:le"], history := [],
    rootfs_diff_ids := ["sha256:de"], size := 7, created := 10,
    container_config_cmd := none }

/-- store for the C3 counterexample: the gone image is present in moray but
its uuid is absent from IMGAPI. -/
def exStoreC3 : Store :=
  { imagesV1 := [], tagsV1 := [], imagesV2 := [exImgGone], tagsV2 := [],
    imgapiUuids := [] }

/-- v1 image fixture named by the tag `cafe:latest`. -/
def exImgCafeV1 : ImageV1 :=
  { docker_id := hex64 'f', owner_uuid := "own-1", index_name := "docker.io",
    head := true, heads := [hex64 'f'], parent := "", refcount := 1,
    image_uuid := "uuid-f", size := 2, created := 20,
    container_config_cmd := none }

/-- v1 tag record `cafe:latest` pointing at `exImgCafeV1`. -/
def exTagCafe : ImageTagV1 :=
  { owner_uuid := "own-1", index_name := "docker.io", repo := "cafe",
    tag := "latest", docker_id := exImgCafeV1.docker_id }

/-- v2 image fixture whose digest starts with `sha256:cafe`. -/
def exImgCafeV2 : ImageV2 :=
  { digest := "sha256:cafe" ++ String.mk (List.replicate 60 '0'),
    owner_uuid := "own-1", head := true, parent := "",
    image_uuid := "uuid-cafe2", manifest_digest := "sha256:mc",
    manifest_layers := some ["sha256:lc"], history := [],
    rootfs_diff_ids := ["sha256:dc"], size := 9, created := 30,
    container_config_cmd := none }

/-- store for the C4 counterexample: the name `cafe` is simultaneously a v1
tag and a hex prefix of a v2 image digest. -/
def exStoreC4 : Store :=
  { imagesV1 := [exImgCafeV1], tagsV1 := [exTagCafe],
    imagesV2 := [exImgCafeV2], tagsV2 := [],
    imgapiUuids := ["uuid-f", "uuid-cafe2"] }

/-- parse result of the name `cafe`. -/
def exRatCafe : RepoAndTag :=
  { localName := "cafe", tag := "latest", digest := none }

/-- C1 witness arguments, untag-by-name case. -/
def exArgsC1A : V2Args :=
  { env := exEnv, owner := "own-1", name := "busybox:latest",
    force := false, imgTag := some exTagLatest, img := exImgA, fuel := 5 }

/-- C1 witness arguments, delete-by-digest case (no imgTag). -/
def exArgsC1B : V2Args :=
  { env := exEnv, owner := "own-1", name := shortDockerId (hex64 'a'),
    force := false, imgTag := none, img := exImgA, fuel := 5 }

/-- C2 witness arguments: non-head target, force set. -/
def exArgsC2 : V1Args :=
  { env := exEnv, owner := "own-1", name := "busybox", force := true,
    imgTag := none, img := exImgNonHead, fuel := 5 }

/-- v2 tag record pointing at the gone image, for the self-heal witness. -/
def exTagGone : ImageTagV2 :=
  { owner_uuid := "own-1", repo := "gone", tag := "latest",
    digest := exImgGone.digest }

/-- store where a v2 tag points at the gone image. -/
def exStoreC3Tag : Store :=
  { imagesV1 := [], tagsV1 := [], imagesV2 := [exImgGone],
    tagsV2 := [exTagGone], imgapiUuids := [] }

/-- v1 image fixture whose backing blob is gone from IMGAPI. -/
def exImgV1Gone : ImageV1 :=
  { docker_id := hex64 '7', owner_uuid := "own-1", index_name := "docker.io",
    head := true, heads := [hex64 '7'], parent := "", refcount := 1,
    image_uuid := "uuid-v1gone", size := 1, created := 5,
    container_config_cmd := none }

/-- v1 tag record pointing at the gone v1 image. -/
def exTagV1Gone : ImageTagV1 :=
  { owner_uuid := "own-1", index_name := "docker.io", repo := "oldy",
    tag := "latest", docker_id := exImgV1Gone.docker_id }

/-- store where a v1 tag points at the gone v1 image. -/
def exStoreC3V1 : Store :=
  { imagesV1 := [exImgV1Gone], tagsV1 := [exTagV1Gone], imagesV2 := [],
    tagsV2 := [], imgapiUuids := [] }

/-- store for the tag-beats-anything v1 case: only the v1 tag exists. -/
def exStoreC4V1 : Store :=
  { imagesV1 := [exImgCafeV1], tagsV1 := [exTagCafe], imagesV2 := [],
    tagsV2 := [], imgapiUuids := ["uuid-f"] }

/-- environment whose IMGAPI reports dependent images for `uuid-dep`. -/
def exEnvDep : Env :=
  { listVms := fun _ _ _ => []
    hasDependentImages := fun u => u == "uuid-dep"
    dcRefcount := fun _ _ _ => some 1
    imgUuidFromDockerDigests := fun l => String.intercalate "+" l }

/-- small v1 cascade member with a last-reference blob that IMGAPI refuses
to delete. -/
def exImgDep : ImageV1 :=
  { docker_id := hex64 '1', owner_uuid := "own-1", index_name := "docker.io",
    head := true, heads := [hex64 '1'], parent := hex64 '2', refcount := 1,
    image_uuid := "uuid-dep", size := 1, created := 2,
    container_config_cmd := none }

/-- parent of `exImgDep` in the v1 cascade fixture. -/
def exImgDepParent : ImageV1 :=
  { docker_id := hex64 '2', owner_uuid := "own-1", index_name := "docker.io",
    head := false, heads := [hex64 '1'], parent := "", refcount := 1,
    image_uuid := "uuid-dep-parent", size := 1, created := 1,
    container_config_cmd := none }

/-- v1 pipeline context fixture with an empty trace. -/
def exCtxV1 : V1Ctx :=
  { store := { imagesV1 := [exImgDep, exImgDepParent], tagsV1 := [],
               imagesV2 := [], tagsV2 := [],
               imgapiUuids := ["uuid-dep", "uuid-dep-parent"] },
    changes := [], imgTags := [],
    imgsToDelete := [.v1 exImgDep, .v1 exImgDepParent],
    dcRefcount := fun _ => some 1, dontDeleteImages := false, trace := [] }

/-- v2 pipeline context fixture with an empty trace. -/
def exCtxV2 : V2Ctx :=
  { store := exStoreC1, changes := [], imgTags := [],
    imgsToDelete := [.v2 exImgA], trace := [] }

/-- layer fixture whose uuid IMGAPI refuses to delete. -/
def exLayerDep : LayerInfo :=
  { layerDigest := "sha256:ld1", diffId := "sha256:dd1", uuid := "uuid-dep" }

/-- layer fixture under `exLayerDep`. -/
def exLayerBase : LayerInfo :=
  { layerDigest := "sha256:ld0", diffId := "sha256:dd0", uuid := "uuid-base" }

/-- ancestry chain fixture, child. -/
def exAncA : ImageV2 :=
  { digest := "sha256:" ++ hex64 '3', owner_uuid := "own-1", head := true,
    parent := "sha256:" ++ hex64 '4', image_uuid := "uuid-anc-a",
    manifest_digest := "sha256:m3", manifest_layers := some [],
    history := [], rootfs_diff_ids := [], size := 1, created := 9,
    container_config_cmd := none }

/-- ancestry chain fixture, parent whose own parent record is missing. -/
def exAncB : ImageV2 :=
  { digest := "sha256:" ++ hex64 '4', owner_uuid := "own-1", head := false,
    parent := "sha256:" ++ hex64 '5', image_uuid := "uuid-anc-b",
    manifest_digest := "sha256:m4", manifest_layers := some [],
    history := [], rootfs_diff_ids := [], size := 1, created := 8,
    container_config_cmd := none }

/-- lookup environment resolving `exAncB` and failing beyond it. -/
def exLookupEnv : LookupEnv :=
  { v1 := fun _ _ => .error (.resourceNotFound "no v1 record")
    v2 := fun d =>
      if d == exAncB.digest then .ok exAncB
      else .error (.resourceNotFound ("No such image: " ++ d)) }

/-- two v1 records with distinct ids sharing the prefix `11`. -/
def exPfxImg1 : ImageV1 :=
  { docker_id := "11" ++ String.mk (List.replicate 62 'a'),
    owner_uuid := "own-1", index_name := "docker.io", head := true,
    heads := [], parent := "", refcount := 1, image_uuid := "uuid-p1",
    size := 1, created := 1, container_config_cmd := none }

/-- second v1 record sharing the prefix `11` with a distinct id. -/
def exPfxImg2 : ImageV1 :=
  { docker_id := "11" ++ String.mk (List.replicate 62 'b'),
    owner_uuid := "own-1", index_name := "docker.io", head := true,
    heads := [], parent := "", refcount := 1, image_uuid := "uuid-p2",
    size := 1, created := 1, container_config_cmd := none }

/-- copy of `exPfxImg1` pulled from a second registry host. -/
def exPfxImg1Quay : ImageV1 :=
  { exPfxImg1 with index_name := "quay.io", image_uuid := "uuid-p1q" }

/-- store with two distinct v1 ids sharing an id prefix. -/
def exStoreC7Distinct : Store :=
  { imagesV1 := [exPfxImg1, exPfxImg2], tagsV1 := [], imagesV2 := [],
    tagsV2 := [], imgapiUuids := ["uuid-p1", "uuid-p2"] }

/-- store with one v1 id duplicated across two registry hosts. -/
def exStoreC7Ambig : Store :=
  { imagesV1 := [exPfxImg1, exPfxImg1Quay], tagsV1 := [], imagesV2 := [],
    tagsV2 := [], imgapiUuids := ["uuid-p1", "uuid-p1q"] }

/-- first of two v2 records whose digests share the prefix `sha256:22`. -/
def exPfxV2Img1 : ImageV2 :=
  { exImgA with
      digest := "sha256:22" ++ String.mk (List.replicate 62 'c'),
      image_uuid := "uuid-q1" }

/-- second of two v2 records whose digests share the prefix `sha256:22`. -/
def exPfxV2Img2 : ImageV2 :=
  { exImgA with
      digest := "sha256:22" ++ String.mk (List.replicate 62 'd'),
      image_uuid := "uuid-q2" }

/-- store with two v2 digests sharing a digest prefix. -/
def exStoreC7V2 : Store :=
  { imagesV1 := [], tagsV1 := [], imagesV2 := [exPfxV2Img1, exPfxV2Img2],
    tagsV2 := [], imgapiUuids := ["uuid-q1", "uuid-q2"] }

/-- parse result of the bare id-prefix name `11`. -/
def exRat11 : RepoAndTag :=
  { localName := "11", tag := "latest", digest := none }

/-- parse result of the bare id-prefix name `22`. -/
def exRat22 : RepoAndTag :=
  { localName := "22", tag := "latest", digest := none }

/-- v1 image fixture whose parent record is missing (broken ancestry). -/
def exImgBroken : ImageV1 :=
  { docker_id := hex64 '6', owner_uuid := "own-1", index_name := "docker.io",
    head := true, heads := [hex64 '6'], parent := hex64 '9', refcount := 1,
    image_uuid := "uuid-broken", size := 1, created := 3,
    container_config_cmd := none }

/-- store holding only the broken-ancestry v1 image. -/
def exStoreC8 : Store :=
  { imagesV1 := [exImgBroken], tagsV1 := [], imagesV2 := [], tagsV2 := [],
    imgapiUuids := ["uuid-broken"] }

/-- v2 image fixture with a two-entry embedded history and no parent. -/
def exImgHist : ImageV2 :=
  { digest := "sha256:" ++ hex64 '8', owner_uuid := "own-1", head := true,
    parent := "", image_uuid := "uuid-hist", manifest_digest := "sha256:mh",
    manifest_layers := some ["sha256:lh"],
    history :=
      [{ comment := "base", created := 11, created_by := "ADD file", size := 4 },
       { comment := "", created := 12, created_by := "CMD sh", size := 0 }],
    rootfs_diff_ids := ["sha256:dh"], size := 4, created := 12,
    container_config_cmd := some ["sh"] }

/-- store holding the embedded-history fixture. -/
def exStoreC9 : Store :=
  { imagesV1 := [exImgCafeV1], tagsV1 := [exTagCafe],
    imagesV2 := [exImgHist], tagsV2 := [], imgapiUuids := ["uuid-hist"] }

/-!
Theorems settling the claims.
-/

/-- C2: for every v1 image record whose head flag is false, `deleteImage`
always fails with the Conflict error citing the 12-char prefixes of the
image's `heads` back-references, for any value of `force`, and neither the
store (tag records, image records, backing blobs) nor the changeLog is
touched. -/
theorem deleteImageV1_nonhead_always_conflict (a : V1Args) (s : Store)
    (h : a.img.head = false) :
    (deleteImageV1 a s).1.store = s ∧
    (deleteImageV1 a s).1.changes = [] ∧
    (deleteImageV1 a s).2 = some (.fail (.dockerError
      ("Conflict, " ++ a.img.docker_id.take 12 ++ " wasn\x27t deleted "
        ++ "because it is an intermediate layer being referenced by "
        ++ String.intercalate ", "
          (a.img.heads.map (fun imgId => imgId.take 12))))) := by
  unfold deleteImageV1 ensureIsHeadImageV1
  simp [h, pbind]

/-- C2 witness: the non-head fixture with `force = true` is rejected with
the heads-citing Conflict and nothing changes. -/
theorem deleteImageV1_nonhead_always_conflict_witness :
    exArgsC2.img.head = false ∧
    ((deleteImageV1 exArgsC2 exStoreC1).1.store = exStoreC1 ∧
     (deleteImageV1 exArgsC2 exStoreC1).1.changes = [] ∧
     (deleteImageV1 exArgsC2 exStoreC1).2 = some (.fail (.dockerError
       ("Conflict, " ++ exArgsC2.img.docker_id.take 12 ++ " wasn\x27t deleted "
         ++ "because it is an intermediate layer being referenced by "
         ++ String.intercalate ", "
           (exArgsC2.img.heads.map (fun imgId => imgId.take 12)))))) :=
  ⟨rfl, deleteImageV1_nonhead_always_conflict exArgsC2 exStoreC1 rfl⟩

/-- C1: for a v2 image with more than one tag, deletion by tag name
(resolution produced `imgTag`) untags exactly that one tag record, leaves
every image record, every other tag record and the backing store unchanged
and returns only that `Untagged` entry; deletion by digest (no `imgTag`)
without force fails with the Conflict and changes nothing. -/
theorem deleteImageV2_multi_tag_policy (a : V2Args) (s : Store)
    (htags : (tagsForImageV2 s a.owner a.img).length > 1) :
    (∀ t, a.imgTag = some t →
      (deleteImageV2 a s).2 = none ∧
      (deleteImageV2 a s).1.changes =
        [Change.untagged (t.repo ++ ":" ++ t.tag)] ∧
      (deleteImageV2 a s).1.store.tagsV2 = (storeDelTagV2 s t).tagsV2 ∧
      (deleteImageV2 a s).1.store.imagesV2 = s.imagesV2 ∧
      (deleteImageV2 a s).1.store.imagesV1 = s.imagesV1 ∧
      (deleteImageV2 a s).1.store.tagsV1 = s.tagsV1 ∧
      (deleteImageV2 a s).1.store.imgapiUuids = s.imgapiUuids) ∧
    (a.imgTag = none → a.force = false →
      (deleteImageV2 a s).2 = some (.fail (.dockerError
        ("conflict: unable to delete "
          ++ shortDockerId (dockerIdFromDigest a.img.digest)
          ++ " (must be forced) - "
          ++ "image is referenced in one or more repositories"))) ∧
      (deleteImageV2 a s).1.store = s ∧
      (deleteImageV2 a s).1.changes = []) := by
  constructor
  · intro t ht
    unfold deleteImageV2 getImgTagsV2 checkTagReferencesV2 checkJustUntagImageV2
    simp [ht, pbind, htags, storeDelTagV2]
  · intro ht hf
    unfold deleteImageV2 getImgTagsV2 checkTagReferencesV2
    simp [ht, hf, pbind, htags]

/-- C1 witness: on the two-tag fixture, deleting by the tag
`busybox:latest` untags only it, and deleting by digest without force is
the Conflict. -/
theorem deleteImageV2_multi_tag_policy_witness :
    ((tagsForImageV2 exStoreC1 exArgsC1A.owner exArgsC1A.img).length > 1 ∧
      ((deleteImageV2 exArgsC1A exStoreC1).2 = none ∧
       (deleteImageV2 exArgsC1A exStoreC1).1.changes =
         [Change.untagged ("busybox" ++ ":" ++ "latest")] ∧
       (deleteImageV2 exArgsC1A exStoreC1).1.store.tagsV2 =
         (storeDelTagV2 exStoreC1 exTagLatest).tagsV2 ∧
       (deleteImageV2 exArgsC1A exStoreC1).1.store.imagesV2 =
         exStoreC1.imagesV2 ∧
       (deleteImageV2 exArgsC1A exStoreC1).1.store.imagesV1 =
         exStoreC1.imagesV1 ∧
       (deleteImageV2 exArgsC1A exStoreC1).1.store.tagsV1 =
         exStoreC1.tagsV1 ∧
       (deleteImageV2 exArgsC1A exStoreC1).1.store.imgapiUuids =
         exStoreC1.imgapiUuids)) ∧
    ((deleteImageV2 exArgsC1B exStoreC1).2 = some (.fail (.dockerError
        ("conflict: unable to delete "
          ++ shortDockerId (dockerIdFromDigest exArgsC1B.img.digest)
          ++ " (must be forced) - "
          ++ "image is referenced in one or more repositories"))) ∧
      (deleteImageV2 exArgsC1B exStoreC1).1.store = exStoreC1 ∧
      (deleteImageV2 exArgsC1B exStoreC1).1.changes = []) :=
  ⟨⟨by decide,
    (deleteImageV2_multi_tag_policy exArgsC1A exStoreC1 (by decide)).1
      exTagLatest rfl⟩,
   (deleteImageV2_multi_tag_policy exArgsC1B exStoreC1 (by decide)).2
     rfl rfl⟩

/-- C10: tagging with no explicit digest and a v1 image always fails with
the "Cannot tag old v1 images" error and writes nothing; and any successful
`tagImage` call had an explicit digest or a v2 image, so tagging can never
resurrect a v1 name mapping. -/
theorem tagImage_never_tags_v1 (s : Store) (owner : String)
    (rat : RepoAndTag) :
    (∀ img : Img, isV1Image img = true →
      tagImage s owner rat none (some img) =
        (s, .error (.dockerError
          "Cannot tag old v1 images - repull or rebuild the image"))) ∧
    (∀ digestOpt imgOpt s2 t,
      tagImage s owner rat digestOpt imgOpt = (s2, .ok t) →
      digestOpt.isSome = true ∨ ∃ v, imgOpt = some (.v2 v)) := by
  constructor
  · intro img h
    cases img with
    | v1 i => simp [tagImage]
    | v2 i => simp [isV1Image] at h
  · intro digestOpt imgOpt s2 t h
    cases digestOpt with
    | some d => exact Or.inl rfl
    | none =>
      cases imgOpt with
      | none => simp [tagImage] at h
      | some img =>
        cases img with
        | v1 i => simp [tagImage] at h
        | v2 v => exact Or.inr ⟨v, rfl⟩

/-- C10 witness: the v1 fixture is rejected and the store is untouched. -/
theorem tagImage_never_tags_v1_witness :
    isV1Image (.v1 exImgCafeV1) = true ∧
    tagImage exStoreC1 "own-1" exRatCafe none (some (.v1 exImgCafeV1)) =
      (exStoreC1, .error (.dockerError
        "Cannot tag old v1 images - repull or rebuild the image")) :=
  ⟨rfl, (tagImage_never_tags_v1 exStoreC1 "own-1" exRatCafe).1
    (.v1 exImgCafeV1) rfl⟩

/-- C7: resolving an id prefix matching two or more distinct v1 docker_ids
returns no record (hard not-found); a prefix whose v1 matches all share one
docker_id but live on several index hosts is the AmbiguousDockerImageId
error; and a v2 digest prefix matching more than one digest returns no
record. -/
theorem idPfxAmbiguityPolicy :
    (∀ s owner indexName rat l,
      isHexStr rat.localName = true → rat.localName.length < 64 →
      listTagsV1ByName s owner indexName rat = [] →
      listImagesV1ByIdPfx s owner indexName rat.localName = l →
      1 < l.length →
      2 ≤ ((l.map (fun i => i.docker_id)).eraseDups).length →
      imgFromNameV1 s owner indexName rat = (s, .ok (none, none))) ∧
    (∀ s owner indexName rat l,
      isHexStr rat.localName = true → rat.localName.length < 64 →
      listTagsV1ByName s owner indexName rat = [] →
      listImagesV1ByIdPfx s owner indexName rat.localName = l →
      1 < l.length →
      ((l.map (fun i => i.docker_id)).eraseDups).length = 1 →
      imgFromNameV1 s owner indexName rat =
        (s, .error (.ambiguousDockerImageId rat.localName
          (l.map (fun i => i.index_name))))) ∧
    (∀ s owner rat l,
      isHexStr rat.localName = true →
      isSha256HexStr rat.localName = false →
      listTagsV2ByName s owner rat = [] →
      listImagesV2ByDigestPfx s owner ("sha256:" ++ rat.localName) = l →
      1 < l.length →
      imgFromNameV2 s owner rat = (s, .ok (none, none))) := by
  refine ⟨?_, ?_, ?_⟩
  · intro s owner indexName rat l hhex hlen htag himgs hcard hdis
    have hne : ¬(rat.localName.length = 64) := by omega
    have hle : rat.localName.length ≤ 64 := by omega
    unfold imgFromNameV1
    rw [htag]
    simp only [List.head?_nil, hhex, Bool.true_and, decide_eq_true_eq]
    rw [if_pos hle, if_neg hne, himgs]
    match l, hcard, hdis with
    | a :: b :: rest, _, hdis =>
      have hd2 : ¬((List.map (fun i => i.docker_id)
          (a :: b :: rest)).eraseDups.length = 1) := by omega
      simp only [List.map_cons] at hd2
      simp [hd2]
  · intro s owner indexName rat l hhex hlen htag himgs hcard hdis
    have hne : ¬(rat.localName.length = 64) := by omega
    have hle : rat.localName.length ≤ 64 := by omega
    unfold imgFromNameV1
    rw [htag]
    simp only [List.head?_nil, hhex, Bool.true_and, decide_eq_true_eq]
    rw [if_pos hle, if_neg hne, himgs]
    match l, hcard, hdis with
    | a :: b :: rest, _, hdis =>
      simp only [List.map_cons] at hdis
      simp [hdis]
  · intro s owner rat l hhex hsha htag himgs hcard
    unfold imgFromNameV2
    rw [htag]
    simp only [List.head?_nil, hsha, Bool.false_eq_true, if_false, hhex,
      if_true]
    rw [himgs]
    match l, hcard with
    | a :: b :: rest, _ => simp

/-- C7 witness: the three fixtures exercise the distinct-ids not-found, the
cross-registry AmbiguousDockerImageId and the v2 digest-prefix not-found. -/
theorem idPfxAmbiguityPolicy_witness :
    imgFromNameV1 exStoreC7Distinct "own-1" none exRat11 =
      (exStoreC7Distinct, .ok (none, none)) ∧
    imgFromNameV1 exStoreC7Ambig "own-1" none exRat11 =
      (exStoreC7Ambig, .error (.ambiguousDockerImageId "11"
        ["docker.io", "quay.io"])) ∧
    imgFromNameV2 exStoreC7V2 "own-1" exRat22 =
      (exStoreC7V2, .ok (none, none)) :=
  ⟨idPfxAmbiguityPolicy.1 exStoreC7Distinct "own-1" none exRat11
      [exPfxImg1, exPfxImg2] (by decide) (by decide) (by decide) (by decide)
      (by decide) (by decide),
   by
    have h := idPfxAmbiguityPolicy.2.1 exStoreC7Ambig "own-1" none exRat11
      [exPfxImg1, exPfxImg1Quay] (by decide) (by decide) (by decide)
      (by decide) (by decide) (by decide)
    simpa using h,
   idPfxAmbiguityPolicy.2.2 exStoreC7V2 "own-1" exRat22
      [exPfxV2Img1, exPfxV2Img2] (by decide) (by decide) (by decide)
      (by decide) (by decide)⟩

/-- C3 counterexample: resolving the gone-blob fixture by its full image
digest reports ResourceNotFound but does NOT delete the stale image record,
which stays in the store (so subsequent list calls still show it).  This
refutes the claim that every resolution path self-heals. -/
theorem staleRecordDigestPathCounterexample :
    imgFromName exSmartosEnv exStoreC3 "own-1" ("sha256:" ++ hex64 'e')
        { localName := "sha256", tag := hex64 'e', digest := none }
        none false =
      (exStoreC3, .error (.resourceNotFound
        "No imgapi image with image_uuid: uuid-gone")) ∧
    exStoreC3.imagesV2.contains exImgGone = true := by
  constructor
  · decide
  · decide

/-- C3 amended: the self-heal deletion happens exactly on the tag-name and
id/digest-prefix resolution paths (`_imgFromNameV1`/`_imgFromNameV2`),
where the caller then sees no record (hence not-found); resolution by full
image digest (and likewise by manifest digest) reports ResourceNotFound
without deleting the stale record. -/
theorem staleRecordSelfHealPolicy :
    (∀ s owner rat t i,
      listTagsV2ByName s owner rat = [t] →
      listImagesV2ByDigest s owner t.digest = [i] →
      imgapiHasUuid s i.image_uuid = false →
      imgFromNameV2 s owner rat =
        (storeDelTagV2 (storeDelImageV2 s i) t, .ok (none, none))) ∧
    (∀ s owner rat i,
      listTagsV2ByName s owner rat = [] →
      isSha256HexStr rat.localName = false →
      isHexStr rat.localName = true →
      listImagesV2ByDigestPfx s owner ("sha256:" ++ rat.localName) = [i] →
      imgapiHasUuid s i.image_uuid = false →
      imgFromNameV2 s owner rat = (storeDelImageV2 s i, .ok (none, none))) ∧
    (∀ s owner indexName rat t i,
      listTagsV1ByName s owner indexName rat = [t] →
      listImagesV1ById s owner indexName t.docker_id = [i] →
      imgapiHasUuid s i.image_uuid = false →
      imgFromNameV1 s owner indexName rat =
        (storeDelTagV1 (storeDelImageV1 s i) t, .ok (none, none))) ∧
    (∀ senv s owner (name : String) rat i indexName,
      rat.digest = none →
      (name.length = 64 + 7 && strHasPfx "sha256:" name) = true →
      listImagesV2ByDigest s owner name = [i] →
      imgapiHasUuid s i.image_uuid = false →
      imgFromName senv s owner name rat indexName false =
        (s, .error (.resourceNotFound
          ("No imgapi image with image_uuid: " ++ i.image_uuid)))) := by
  refine ⟨?_, ?_, ?_, ?_⟩
  · intro s owner rat t i htag himg hgone
    unfold imgFromNameV2
    rw [htag]
    simp only [List.head?_cons]
    rw [himg]
    simp [hgone]
  · intro s owner rat i htag hsha hhex himg hgone
    unfold imgFromNameV2
    rw [htag]
    simp only [List.head?_nil, hsha, Bool.false_eq_true, if_false, hhex,
      if_true]
    rw [himg]
    simp [hgone]
  · intro s owner indexName rat t i htag himg hgone
    unfold imgFromNameV1
    rw [htag]
    simp only [List.head?_cons]
    rw [himg]
    simp [hgone]
  · intro senv s owner name rat i indexName hrd hname himg hgone
    unfold imgFromName
    simp only [Bool.false_and, Bool.false_eq_true, if_false]
    unfold imgFromName.imgFromNameRest
    rw [hrd]
    simp only [hname, if_true]
    unfold imgFromDigest
    rw [himg]
    simp [hgone]

/-- C3 witness: the tag-name, id-prefix and v1 paths self-heal on the gone
fixtures, and the digest path of the counterexample instantiates the
no-heal branch. -/
theorem staleRecordSelfHealPolicy_witness :
    imgFromNameV2 exStoreC3Tag "own-1"
        { localName := "gone", tag := "latest", digest := none } =
      (storeDelTagV2 (storeDelImageV2 exStoreC3Tag exImgGone) exTagGone,
        .ok (none, none)) ∧
    imgFromNameV2 exStoreC3 "own-1"
        { localName := "ee", tag := "latest", digest := none } =
      (storeDelImageV2 exStoreC3 exImgGone, .ok (none, none)) ∧
    imgFromNameV1 exStoreC3V1 "own-1" none
        { localName := "oldy", tag := "latest", digest := none } =
      (storeDelTagV1 (storeDelImageV1 exStoreC3V1 exImgV1Gone) exTagV1Gone,
        .ok (none, none)) ∧
    imgFromName exSmartosEnv exStoreC3 "own-1" ("sha256:" ++ hex64 'e')
        { localName := "sha256", tag := hex64 'e', digest := none }
        none false =
      (exStoreC3, .error (.resourceNotFound
        ("No imgapi image with image_uuid: " ++ exImgGone.image_uuid))) :=
  ⟨staleRecordSelfHealPolicy.1 exStoreC3Tag "own-1" _ exTagGone exImgGone
     (by decide) (by decide) (by decide),
   staleRecordSelfHealPolicy.2.1 exStoreC3 "own-1" _ exImgGone
     (by decide) (by decide) (by decide) (by decide) (by decide),
   staleRecordSelfHealPolicy.2.2.1 exStoreC3V1 "own-1" none _ exTagV1Gone
     exImgV1Gone (by decide) (by decide) (by decide),
   staleRecordSelfHealPolicy.2.2.2 exSmartosEnv exStoreC3 "own-1"
     ("sha256:" ++ hex64 'e') _ exImgGone none rfl (by decide) (by decide)
     (by decide)⟩

/-- C4 counterexample: the name `cafe` exists as a v1 tag record and is a
hex prefix of a stored v2 digest; `imgFromName` returns the v2 prefix
match with no tag record, not the record denoted by the v1 tag. -/
theorem nameBeatsIdCounterexample :
    imgFromName exSmartosEnv exStoreC4 "own-1" "cafe" exRatCafe none false =
      (exStoreC4, .ok (some (.v2 exImgCafeV2), none)) ∧
    some (Resolved.v2 exImgCafeV2) ≠ some (Resolved.v1 exImgCafeV1) := by
  constructor
  · decide
  · decide

/-- C4 amended: within each schema the tag lookup runs first and, when it
finds a tag record, the id/digest-prefix search is not used; but v2
resolution (including its digest-prefix fallback) runs before v1, so a v2
digest-prefix match shadows a v1 tag record of the same name. -/
theorem tagBeatsIdWithinSchema :
    (∀ s owner rat t ts i,
      listTagsV2ByName s owner rat = t :: ts →
      listImagesV2ByDigest s owner t.digest = [i] →
      imgapiHasUuid s i.image_uuid = true →
      imgFromNameV2 s owner rat = (s, .ok (some i, some t))) ∧
    (∀ s owner indexName rat t ts i,
      listTagsV1ByName s owner indexName rat = t :: ts →
      listImagesV1ById s owner indexName t.docker_id = [i] →
      imgapiHasUuid s i.image_uuid = true →
      imgFromNameV1 s owner indexName rat = (s, .ok (some i, some t))) ∧
    (∀ senv s owner (name : String) rat indexName s2 i tg,
      rat.digest = none →
      (name.length = 64 + 7 && strHasPfx "sha256:" name) = false →
      imgFromNameV2 s owner rat = (s2, .ok (some i, tg)) →
      imgFromName senv s owner name rat indexName false =
        (s2, .ok (some (.v2 i), tg.map AnyTag.v2))) := by
  refine ⟨?_, ?_, ?_⟩
  · intro s owner rat t ts i htag himg hok
    unfold imgFromNameV2
    rw [htag]
    simp only [List.head?_cons]
    rw [himg]
    simp [hok]
  · intro s owner indexName rat t ts i htag himg hok
    unfold imgFromNameV1
    rw [htag]
    simp only [List.head?_cons]
    rw [himg]
    simp [hok]
  · intro senv s owner name rat indexName s2 i tg hrd hname hv2
    unfold imgFromName
    simp only [Bool.false_and, Bool.false_eq_true, if_false]
    unfold imgFromName.imgFromNameRest
    rw [hrd]
    simp only [hname, Bool.false_eq_true, if_false]
    rw [hv2]

/-- C4 witness: the per-schema tag-beats-id parts at the two-tag v2 fixture
and the v1-only fixture, and the v2-shadows-v1 part at the counterexample
fixture. -/
theorem tagBeatsIdWithinSchema_witness :
    imgFromNameV2 exStoreC1 "own-1"
        { localName := "busybox", tag := "latest", digest := none } =
      (exStoreC1, .ok (some exImgA, some exTagLatest)) ∧
    imgFromNameV1 exStoreC4V1 "own-1" none exRatCafe =
      (exStoreC4V1, .ok (some exImgCafeV1, some exTagCafe)) ∧
    imgFromName exSmartosEnv exStoreC4 "own-1" "cafe" exRatCafe none false =
      (exStoreC4, .ok (some (.v2 exImgCafeV2), none)) :=
  ⟨tagBeatsIdWithinSchema.1 exStoreC1 "own-1" _ exTagLatest [] exImgA
     (by decide) (by decide) (by decide),
   tagBeatsIdWithinSchema.2.1 exStoreC4V1 "own-1" none exRatCafe exTagCafe
     [] exImgCafeV1 (by decide) (by decide) (by decide),
   tagBeatsIdWithinSchema.2.2 exSmartosEnv exStoreC4 "own-1" "cafe"
     exRatCafe none exStoreC4 exImgCafeV2 none rfl (by decide) (by decide)⟩

/-- auxiliary for C6: running the walk along a chain whose members all have
nonempty parents, whose consecutive lookups succeed and whose last parent
lookup fails, appends the chain to the accumulator and ends with
`checkAndCallback` on the failing error. -/
theorem walk_follows_chain (env : LookupEnv) (e : DErr) :
    ∀ (chain : List Img) (acc : List Img) (fuel : Nat) (hne : chain ≠ []),
      (∀ c ∈ chain, (c.parent == "") = false) →
      List.Chain' (fun x y => lookupStep env x = .ok y) chain →
      lookupStep env (chain.getLast hne) = .error e →
      chain.length ≤ fuel →
      addAndGetNextItem env fuel (chain.head hne) acc =
        some (checkAndCallback (acc ++ chain) (some e)) := by
  intro chain
  induction chain with
  | nil => intro acc fuel hne; exact absurd rfl hne
  | cons a rest ih =>
    intro acc fuel hne hpar hchain hfail hfuel
    cases fuel with
    | zero => simp at hfuel
    | succ f =>
      have hpa := hpar a (List.mem_cons_self a rest)
      cases rest with
      | nil =>
        have hfaila : lookupStep env a = .error e := by
          simpa [List.getLast] using hfail
        unfold addAndGetNextItem
        simp only [List.head_cons, hpa, Bool.false_eq_true, if_false]
        rw [hfaila]
      | cons b rest2 =>
        obtain ⟨hab, hchain2⟩ := List.chain'_cons.mp hchain
        have hne2 : b :: rest2 ≠ [] := by simp
        have hlast : (b :: rest2).getLast hne2 =
            (a :: b :: rest2).getLast hne := (List.getLast_cons hne2).symm
        have hrec := ih (acc ++ [a]) f hne2
          (fun c hc => hpar c (List.mem_cons_of_mem a hc))
          hchain2
          (by rw [hlast]; exact hfail)
          (by simpa using Nat.succ_le_succ_iff.mp (by simpa using hfuel))
        unfold addAndGetNextItem
        simp only [List.head_cons, hpa, Bool.false_eq_true, if_false]
        rw [hab]
        simp only [List.head_cons] at hrec
        show addAndGetNextItem env f b (acc ++ [a]) = _
        rw [hrec]
        simp

/-- C6: for a parent chain whose k-th lookup fails (the chain lists the
k-1 records found before the failure, each with a nonempty parent), the
walk returns those records with the partial flag when the failure is a
ResourceNotFound, and propagates any other error as the result. -/
theorem ancestryWalkPartialPolicy (env : LookupEnv) (fuel : Nat)
    (chain : List Img) (e : DErr) (hne : chain ≠ [])
    (hpar : ∀ c ∈ chain, (c.parent == "") = false)
    (hchain : List.Chain' (fun x y => lookupStep env x = .ok y) chain)
    (hfail : lookupStep env (chain.getLast hne) = .error e)
    (hfuel : chain.length ≤ fuel) :
    getImageAncestry env fuel (chain.head hne) =
      some (if e.restCode == "ResourceNotFound"
            then .ok (chain, true) else .error e) := by
  have h := walk_follows_chain env e chain [] fuel hne hpar hchain hfail hfuel
  unfold getImageAncestry
  rw [h]
  unfold checkAndCallback
  have hlen : 1 ≤ chain.length := by
    cases chain with
    | nil => exact absurd rfl hne
    | cons a rest => simp
  cases hc : e.restCode == "ResourceNotFound" with
  | true => simp [hc, hlen]
  | false => simp [hc, hlen]

/-- C6 witness: on the two-record v2 chain whose third lookup is a
ResourceNotFound, the walk returns the two records and the partial flag. -/
theorem ancestryWalkPartialPolicy_witness :
    getImageAncestry exLookupEnv 2 (Img.v2 exAncA) =
      some (.ok ([Img.v2 exAncA, Img.v2 exAncB], true)) := by
  have h := ancestryWalkPartialPolicy exLookupEnv 2
      [Img.v2 exAncA, Img.v2 exAncB]
      (.resourceNotFound ("No such image: " ++ ("sha256:" ++ hex64 '5')))
      (by decide) (by decide)
      (by
        rw [List.chain'_cons]
        exact ⟨by decide, List.chain'_singleton _⟩)
      (by decide) (by decide)
  simpa using h

/-- C9: for a v2 image whose walked ancestry is no longer than its embedded
history, `getImageHistory` returns one entry per ancestor followed by
synthetic `<missing>` entries so the total always equals the embedded
history length; for a v1 image it returns exactly one entry per walked
ancestor with no synthetic padding. -/
theorem historyLengthPolicy (s : Store) (owner : String)
    (indexName : Option String) (fuel : Nat) :
    (∀ i anc b,
      getImageAncestry (lookupEnvOfStore s owner) fuel (.v2 i) =
        some (.ok (anc, b)) →
      anc.length ≤ i.history.length →
      getImageHistory s owner indexName fuel (.v2 i) =
        some (.ok (anc.map (histEntryOfImg s owner indexName) ++
          ((i.history.take (i.history.length - anc.length)).reverse.map
            histEntryOfHistory))) ∧
      (anc.map (histEntryOfImg s owner indexName) ++
          ((i.history.take (i.history.length - anc.length)).reverse.map
            histEntryOfHistory)).length = i.history.length ∧
      (∀ h ∈ (i.history.take (i.history.length - anc.length)).reverse.map
          histEntryOfHistory, h.id = "<missing>")) ∧
    (∀ i anc b,
      getImageAncestry (lookupEnvOfStore s owner) fuel (.v1 i) =
        some (.ok (anc, b)) →
      getImageHistory s owner indexName fuel (.v1 i) =
        some (.ok (anc.map (histEntryOfImg s owner indexName)))) := by
  constructor
  · intro i anc b hanc hle
    refine ⟨?_, ?_, ?_⟩
    · unfold getImageHistory
      rw [hanc]
      by_cases hgt : i.history.length > anc.length
      · have hcond : i.history.length >
            (anc.map (histEntryOfImg s owner indexName)).length := by
          simpa using hgt
        simp only [if_pos hcond]
        have hlen : (anc.map (histEntryOfImg s owner indexName) ++
            ((i.history.take (i.history.length -
              (anc.map (histEntryOfImg s owner indexName)).length)).reverse.map
              histEntryOfHistory)).length = i.history.length := by
          simp
          omega
        simp only [List.length_map] at hlen ⊢
        simp only [if_pos hlen]
      · have heq : anc.length = i.history.length := by omega
        have hcond : ¬(i.history.length >
            (anc.map (histEntryOfImg s owner indexName)).length) := by
          simpa using hgt
        simp only [if_neg hcond]
        have htake : i.history.length - anc.length = 0 := by omega
        rw [htake]
        simp [heq]
    · simp
      omega
    · intro h hmem
      simp only [List.mem_map] at hmem
      obtain ⟨x, _, hx⟩ := hmem
      rw [← hx]
      rfl
  · intro i anc b hanc
    unfold getImageHistory
    rw [hanc]

/-- C9 witness: the fixture image with a two-entry embedded history and a
single-record ancestry gets one real entry plus one `<missing>` entry (two
in total), and the v1 fixture gets exactly its one ancestry entry. -/
theorem historyLengthPolicy_witness :
    (getImageHistory exStoreC9 "own-1" none 3 (.v2 exImgHist) =
      some (.ok ([Img.v2 exImgHist].map
          (histEntryOfImg exStoreC9 "own-1" none) ++
        ((exImgHist.history.take
          (exImgHist.history.length - 1)).reverse.map histEntryOfHistory)))) ∧
    (getImageHistory exStoreC9 "own-1" none 3 (.v1 exImgCafeV1) =
      some (.ok ([Img.v1 exImgCafeV1].map
        (histEntryOfImg exStoreC9 "own-1" none)))) :=
  ⟨((historyLengthPolicy exStoreC9 "own-1" none 3).1 exImgHist
      [Img.v2 exImgHist] false (by decide) (by decide)).1,
   (historyLengthPolicy exStoreC9 "own-1" none 3).2 exImgCafeV1
      [Img.v1 exImgCafeV1] false (by decide)⟩

/-- auxiliary: a trace of all-non-dependent answers satisfies the
short-circuit shape. -/
theorem stopsAfterDep_of_allNotDep (dep : String → Bool) :
    ∀ l, allNotDep dep l = true → stopsAfterDep dep l = true := by
  intro l
  induction l with
  | nil => intro _; rfl
  | cons u rest ih =>
    intro h
    simp only [allNotDep, List.all_cons, Bool.and_eq_true] at h
    unfold stopsAfterDep
    have hu : dep u = false := by
      cases hd : dep u
      · rfl
      · rw [hd] at h; simp at h
    simp only [hu, Bool.false_eq_true, if_false]
    exact ih (by simpa [allNotDep] using h.2)

/-- auxiliary: all-non-dependent answers followed by one dependent answer
satisfy the short-circuit shape. -/
theorem stopsAfterDep_append_dep (dep : String → Bool) :
    ∀ l u, allNotDep dep l = true → dep u = true →
      stopsAfterDep dep (l ++ [u]) = true := by
  intro l
  induction l with
  | nil =>
    intro u _ hu
    simp [stopsAfterDep, hu]
  | cons v rest ih =>
    intro u h hu
    simp only [allNotDep, List.all_cons, Bool.and_eq_true] at h
    have hv : dep v = false := by
      cases hd : dep v
      · rfl
      · rw [hd] at h; simp at h
    simp only [List.cons_append]
    unfold stopsAfterDep
    simp only [hv, Bool.false_eq_true, if_false]
    exact ih u (by simpa [allNotDep] using h.2) hu

/-- auxiliary: once the v1 cascade latch is set, no further IMGAPI delete
is issued (the trace stays unchanged). -/
theorem deleteImgsGoV1_latched_trace (env : Env) (target : ImageV1) :
    ∀ imgs ctx,
      ((deleteImgsGoV1 env target imgs ctx true).1.1).trace = ctx.trace := by
  intro imgs
  induction imgs with
  | nil => intro ctx; rfl
  | cons i rest ih =>
    intro ctx
    unfold deleteImgsGoV1
    cases i with
    | v2 v => rfl
    | v1 img =>
      by_cases hrc : img.refcount > 1
      · simp only [if_pos hrc]
        rw [ih]
      · simp only [if_neg hrc]
        simp only [Bool.or_true, if_true]
        rw [ih]

/-- auxiliary: once the v2 layer-cascade latch is set, every remaining
layer is skipped (the context is unchanged). -/
theorem deleteLayerGoV2_latched (env : Env) :
    ∀ lis ctx own, deleteLayerGoV2 env lis ctx own true = (ctx, true) := by
  intro lis
  induction lis with
  | nil => intro ctx own; rfl
  | cons li rest ih =>
    intro ctx own
    unfold deleteLayerGoV2
    simp only [if_true]
    exact ih ctx own

/-- auxiliary: the v1 cascade never issues an IMGAPI delete after one was
answered with `ImageHasDependentImages`. -/
theorem deleteImgsGoV1_trace (env : Env) (target : ImageV1) :
    ∀ imgs ctx,
      allNotDep env.hasDependentImages ctx.trace = true →
      stopsAfterDep env.hasDependentImages
        (((deleteImgsGoV1 env target imgs ctx false).1.1).trace) = true := by
  intro imgs
  induction imgs with
  | nil => intro ctx h; exact stopsAfterDep_of_allNotDep _ _ h
  | cons i rest ih =>
    intro ctx h
    unfold deleteImgsGoV1
    cases i with
    | v2 v => exact stopsAfterDep_of_allNotDep _ _ h
    | v1 img =>
      by_cases hrc : img.refcount > 1
      · simp only [if_pos hrc]
        exact ih _ (by simpa using h)
      · simp only [if_neg hrc, Bool.or_false]
        cases hl : (ctx.dcRefcount img.docker_id).isSome with
        | false =>
          simp only [hl, Bool.not_false, if_true]
          exact ih _ (by simpa using h)
        | true =>
          simp only [hl, Bool.not_true, Bool.false_eq_true, if_false]
          cases hd : env.hasDependentImages img.image_uuid with
          | true =>
            simp only [hd, if_true]
            rw [deleteImgsGoV1_latched_trace]
            exact stopsAfterDep_append_dep _ _ _ (by simpa using h) hd
          | false =>
            simp only [hd, Bool.false_eq_true, if_false]
            refine ih _ ?_
            simp only [allNotDep, List.all_append, List.all_cons,
              List.all_nil, Bool.and_true, Bool.and_eq_true]
            exact ⟨by simpa [allNotDep] using h, by simp [hd]⟩

/-- auxiliary: the v1 cascade never fails when every cascade member is a
v1 record (the latch is not an error). -/
theorem deleteImgsGoV1_succeeds (env : Env) (target : ImageV1) :
    ∀ imgs ctx flag,
      (∀ x ∈ imgs, isV1Image x = true) →
      (deleteImgsGoV1 env target imgs ctx flag).2 = none := by
  intro imgs
  induction imgs with
  | nil => intro ctx flag _; rfl
  | cons i rest ih =>
    intro ctx flag hv
    unfold deleteImgsGoV1
    cases i with
    | v2 v => exact absurd (hv _ (List.mem_cons_self _ _)) (by simp [isV1Image])
    | v1 img =>
      have hrest : ∀ x ∈ rest, isV1Image x = true :=
        fun x hx => hv x (List.mem_cons_of_mem _ hx)
      by_cases hrc : img.refcount > 1
      · simp only [if_pos hrc]
        exact ih _ _ hrest
      · simp only [if_neg hrc]
        cases hcond : (!(ctx.dcRefcount img.docker_id).isSome || flag) with
        | true =>
          simp only [if_true]
          exact ih _ _ hrest
        | false =>
          simp only [Bool.false_eq_true, if_false]
          cases hd : env.hasDependentImages img.image_uuid with
          | true =>
            simp only [if_true]
            exact ih _ _ hrest
          | false =>
            simp only [Bool.false_eq_true, if_false]
            exact ih _ _ hrest

/-- auxiliary: the v2 layer cascade never issues an IMGAPI delete after one
was answered with `ImageHasDependentImages` (or after a positive residual
reference count). -/
theorem deleteLayerGoV2_trace (env : Env) :
    ∀ lis ctx own,
      allNotDep env.hasDependentImages ctx.trace = true →
      stopsAfterDep env.hasDependentImages
        ((deleteLayerGoV2 env lis ctx own false).1.trace) = true := by
  intro lis
  induction lis with
  | nil => intro ctx own h; exact stopsAfterDep_of_allNotDep _ _ h
  | cons li rest ih =>
    intro ctx own h
    unfold deleteLayerGoV2
    simp only [Bool.false_eq_true, if_false]
    by_cases hcnt : (if own li.uuid > 0 then
        (ctx.store.imagesV2.filter (fun i => i.image_uuid == li.uuid)).length - 1
      else (ctx.store.imagesV2.filter (fun i => i.image_uuid == li.uuid)).length) ≥ 1
    · simp only [if_pos hcnt]
      rw [deleteLayerGoV2_latched]
      exact stopsAfterDep_of_allNotDep _ _ h
    · simp only [if_neg hcnt]
      cases hd : env.hasDependentImages li.uuid with
      | true =>
        simp only [hd, if_true]
        rw [deleteLayerGoV2_latched]
        exact stopsAfterDep_append_dep _ _ _ (by simpa using h) hd
      | false =>
        simp only [hd, Bool.false_eq_true, if_false]
        refine ih _ _ ?_
        simp only [allNotDep, List.all_append, List.all_cons, List.all_nil,
          Bool.and_true, Bool.and_eq_true]
        exact ⟨by simpa [allNotDep] using h, by simp [hd]⟩

/-- auxiliary: v2 metadata record deletion is unconditional: for a cascade
of v2 records (non-target members non-head), every record is deleted and a
`Deleted` entry appended, independent of any layer-reclamation outcome. -/
theorem deleteDockerImagesGoV2_unconditional (td : String) :
    ∀ imgs ctx,
      (∀ x ∈ imgs, ∃ v : ImageV2, x = .v2 v ∧ (v.digest ≠ td → v.head = false)) →
      deleteDockerImagesGoV2 td imgs ctx =
        (imgs.foldl (fun c x =>
          match x with
          | .v2 img => { c with
              store := storeDelImageV2 c.store img,
              changes := c.changes ++ [Change.deleted img.digest] }
          | .v1 _ => c) ctx, none) := by
  intro imgs
  induction imgs with
  | nil => intro ctx _; rfl
  | cons i rest ih =>
    intro ctx hv
    obtain ⟨v, hi, hh⟩ := hv i (List.mem_cons_self _ _)
    subst hi
    unfold deleteDockerImagesGoV2
    have hcond : (v.digest != td && v.head) = false := by
      by_cases hdig : v.digest = td
      · simp [hdig]
      · simp [hh hdig, bne]
    simp only [hcond, Bool.false_eq_true, if_false, List.foldl_cons]
    exact ih _ (fun x hx => hv x (List.mem_cons_of_mem _ hx))

/-- C5: during one deletion cascade the first `ImageHasDependentImages`
answer from the backing store is swallowed — the cascade still succeeds —
and no further backing-blob deletion is attempted for the remainder of that
call (v1 `deleteOneImg` and v2 `deleteLayer` alike); and for v2 the
metadata record deletions of `deleteDockerImages` still proceed
unconditionally, independent of the layer-reclamation outcome. -/
theorem dependentBlobShortCircuit (env : Env) :
    (∀ (target : ImageV1) imgs ctx,
      (∀ x ∈ imgs, isV1Image x = true) →
      (deleteImgsGoV1 env target imgs ctx false).2 = none) ∧
    (∀ (target : ImageV1) imgs ctx,
      allNotDep env.hasDependentImages ctx.trace = true →
      stopsAfterDep env.hasDependentImages
        (((deleteImgsGoV1 env target imgs ctx false).1.1).trace) = true) ∧
    (∀ lis ctx own,
      allNotDep env.hasDependentImages ctx.trace = true →
      stopsAfterDep env.hasDependentImages
        ((deleteLayerGoV2 env lis ctx own false).1.trace) = true) ∧
    (∀ td imgs ctx,
      (∀ x ∈ imgs, ∃ v : ImageV2, x = .v2 v ∧ (v.digest ≠ td → v.head = false)) →
      deleteDockerImagesGoV2 td imgs ctx =
        (imgs.foldl (fun c x =>
          match x with
          | .v2 img => { c with
              store := storeDelImageV2 c.store img,
              changes := c.changes ++ [Change.deleted img.digest] }
          | .v1 _ => c) ctx, none)) :=
  ⟨fun target imgs ctx h => deleteImgsGoV1_succeeds env target imgs ctx false h,
   fun target imgs ctx h => deleteImgsGoV1_trace env target imgs ctx h,
   fun lis ctx own h => deleteLayerGoV2_trace env lis ctx own h,
   fun td imgs ctx h => deleteDockerImagesGoV2_unconditional td imgs ctx h⟩

/-- C5 witness: a concrete two-member v1 cascade and two-layer v2 cascade
under an IMGAPI that reports dependents for `uuid-dep`, plus the
unconditional metadata deletion of the one-record v2 cascade. -/
theorem dependentBlobShortCircuit_witness :
    (deleteImgsGoV1 exEnvDep exImgDep
        [Img.v1 exImgDep, Img.v1 exImgDepParent] exCtxV1 false).2 = none ∧
    stopsAfterDep exEnvDep.hasDependentImages
      (((deleteImgsGoV1 exEnvDep exImgDep
        [Img.v1 exImgDep, Img.v1 exImgDepParent] exCtxV1 false).1.1).trace) =
        true ∧
    stopsAfterDep exEnvDep.hasDependentImages
      ((deleteLayerGoV2 exEnvDep [exLayerDep, exLayerBase] exCtxV2
        (fun _ => 0) false).1.trace) = true ∧
    deleteDockerImagesGoV2 exImgA.digest [Img.v2 exImgA] exCtxV2 =
      ([Img.v2 exImgA].foldl (fun c x =>
        match x with
        | .v2 img => { c with
            store := storeDelImageV2 c.store img,
            changes := c.changes ++ [Change.deleted img.digest] }
        | .v1 _ => c) exCtxV2, none) :=
  ⟨(dependentBlobShortCircuit exEnvDep).1 exImgDep
      [Img.v1 exImgDep, Img.v1 exImgDepParent] exCtxV1
      (by intro x hx; fin_cases hx <;> rfl),
   (dependentBlobShortCircuit exEnvDep).2.1 exImgDep
      [Img.v1 exImgDep, Img.v1 exImgDepParent] exCtxV1 (by decide),
   (dependentBlobShortCircuit exEnvDep).2.2.1 [exLayerDep, exLayerBase]
      exCtxV2 (fun _ => 0) (by decide),
   (dependentBlobShortCircuit exEnvDep).2.2.2 exImgA.digest [Img.v2 exImgA]
      exCtxV2 (by
        intro x hx
        simp only [List.mem_singleton] at hx
        subst hx
        exact ⟨exImgA, rfl, fun hcontra => absurd rfl hcontra⟩)⟩

/-- C8: at the broken-ancestry fixture the v1 delete's ancestry walk is
partial; `getImgsToDelete` then appends exactly one warning changeLog entry
and limits the cascade to the records found before the break, but its
partial-history branch falls through (there is no `return` after its
`cb()`), so the vasync pipeline continuation is invoked twice for that
step instead of exactly once. -/
theorem partialAncestryDoubleContinuation :
    getImageAncestry (lookupEnvOfStore exStoreC8 "own-1") 9
        (.v1 exImgBroken) = some (.ok ([.v1 exImgBroken], true)) ∧
    getImgsToDeleteV1Warnings "busybox" (.ok ([.v1 exImgBroken], true)) =
      [Change.deleted "warning: busybox missing some history: null"] ∧
    getImgsToDeleteV1CbCalls (.ok ([.v1 exImgBroken], true)) =
      [none, none] ∧
    (getImgsToDeleteV1CbCalls (.ok ([.v1 exImgBroken], true))).length ≠ 1 :=
  ⟨by decide, by decide, by decide, by decide⟩

end SdcDocker
